import Mathlib

/-!
Verification of the derivative-generation pipeline of the image-processing
repository (src/image_processing/transform.py, src/image_processing/exceptions.py)
against its natural-language specification.

The pipeline is embedded shallowly: the filesystem is an association list from
paths to byte lists, the external conversion/validation/metadata capabilities
(ImageMagick, Kakadu, jpylyzer, libxmp - out of scope per spec section 1) are an
oracle structure `Ext`, exceptions are an `Except` result, and each traced step
of a run is recorded in an event list so that ordering claims can be stated.
-/

namespace ImageProcessing

/-- Raw file contents: a byte list. -/
abbrev Bytes := List Nat

/-- The filesystem: an association list from paths to file contents.
`fsSet` removes any older binding for the key, so keys stay unique. -/
abbrev FS := List (String × Bytes)

/-- Read a file: the first entry bound to path `p`. -/
def fsGet (fs : FS) (p : String) : Option Bytes :=
  (fs.find? (fun e => e.1 == p)).map (fun e => e.2)

/-- Write a file, replacing any previous binding for the path. -/
def fsSet (fs : FS) (p : String) (b : Bytes) : FS :=
  (p, b) :: fs.filter (fun e => !(e.1 == p))

/-- Character-list test for "the first list is an initial segment of the second". -/
def isPref : List Char → List Char → Bool
  | [], _ => true
  | _ :: _, [] => false
  | a :: as, b :: bs => a == b && isPref as bs

/-- `dirHas dir p` holds when path `p` lies inside directory `dir`,
that is, the string `dir ++ "/"` starts the path. -/
def dirHas (dir p : String) : Bool := isPref (dir.data ++ ['/']) p.data

/-- `os.path.join` for the single-separator joins used in transform.py. -/
def pjoin (a b : String) : String := a ++ "/" ++ b

/-- Exception classes of image_processing/exceptions.py, plus the builtin
errors the pipeline can surface (IOError from file access, libxmp failures). -/
inductive Err where
  | io
  | imageMagick
  | kakadu
  | validation
  | metadata
  deriving DecidableEq, Repr

/-- Trace of the externally visible steps one run performs, in order. -/
inductive Ev where
  | jpgConv (src dst : String)
  | tiffConv (src dst : String)
  | fileCopy (src dst : String)
  | repage (p : String)
  | lossless (src dst : String)
  | profile (p : String)
  | lossy (src dst : String)
  | jp2Check (p : String)
  | checksum (p : String)
  | xmpWrite (p : String)
  | cleanup
  deriving DecidableEq, Repr

/-- Program state threaded through a pipeline run: the filesystem, whether the
scratch directory currently exists, the number of open libxmp file handles,
and the event trace. -/
structure PSt where
  fs : FS
  scratchLive : Bool
  xmpHandles : Nat
  events : List Ev
  deriving Repr

def writeFile (st : PSt) (p : String) (b : Bytes) : PSt :=
  { st with fs := fsSet st.fs p b }

def recordEv (st : PSt) (e : Ev) : PSt :=
  { st with events := st.events ++ [e] }

/-- Open and read an existing file; a missing file is an IO failure. -/
def readFile (st : PSt) (p : String) : Except Err Bytes × PSt :=
  match fsGet st.fs p with
  | some b => (Except.ok b, st)
  | none => (Except.error Err.io, st)

/-- Lift a pure oracle result into the state-threading form. -/
def liftE {α : Type} (r : Except Err α) (st : PSt) : Except Err α × PSt := (r, st)

/-- Sequencing: run the continuation only when the first step succeeded;
an exception aborts the remaining steps but keeps the state reached so far. -/
def andThen {α β : Type} (x : Except Err α × PSt) (f : α → PSt → Except Err β × PSt) :
    Except Err β × PSt :=
  match x with
  | (Except.ok a, st) => f a st
  | (Except.error e, st) => (Except.error e, st)

/-- The external collaborator capabilities the pipeline calls
(format_converter.FormatConverter methods, the structural JP2 validator,
the pixel-checksum capability, and the libxmp metadata extractor).
Each conversion maps the bytes read from the source path (plus options) to
either the produced bytes or a failure; `rmtree_ok` says whether the
best-effort scratch delete succeeds. -/
structure Ext where
  convert_to_jpg : Bytes → Except Err Bytes
  convert_to_tiff : Bytes → List String → Except Err Bytes
  repage_image : Bytes → Except Err Bytes
  convert_tiff_colour_profile : Bytes → String → Except Err Bytes
  convert_to_jpeg2000 : Bytes → Bool → Except Err Bytes
  convert_colour_to_jpeg2000 : Bytes → Bool → Except Err Bytes
  jp2_valid : Bytes → Bool
  generate_pixel_checksum : Bytes → Nat
  xmp_files_open : Bytes → Except Err Unit
  get_xmp : Bytes → Except Err Bytes
  serialize_to_unicode : Bytes → Except Err Bytes
  rmtree_ok : Bool

/-- The configuration of transform.Transform: per-derivative filenames and the
ICC profile path (transform.py lines 29-38). -/
structure Transform where
  tiff_filename : String
  xmp_filename : String
  jpg_filename : String
  lossless_jp2_filename : String
  lossy_jp2_filename : String
  icc_profile : String

/-- The default filenames and profile path (transform.py lines 17-23). -/
def defaultTransform : Transform :=
  { tiff_filename := "full.tiff"
    xmp_filename := "xmp.xml"
    jpg_filename := "full.jpg"
    lossless_jp2_filename := "full_lossless.jp2"
    lossy_jp2_filename := "full_lossy.jp2"
    icc_profile := "/opt/kakadu/sRGB_v4_ICC_preference.icc" }

/-- `shutil.rmtree(scratch_output_folder, ignore_errors=True)`: best-effort
removal of the scratch directory. `ext.rmtree_ok` says whether the delete
succeeds; with `ignore_errors=True` a failed delete never raises. -/
def rmtree (ext : Ext) (st : PSt) (dir : String) : PSt :=
  if ext.rmtree_ok then
    { st with fs := st.fs.filter (fun e => !(dirHas dir e.1)),
              scratchLive := false,
              events := st.events ++ [Ev.cleanup] }
  else
    { st with events := st.events ++ [Ev.cleanup] }

/-- Modelled from the spec: `validation.validate_jp2` (validation.py is part of
this repository but is not under src/; transform.py imports it). Spec section 4.2:
parse the JPEG2000 codestream far enough to confirm structural well-formedness
and raise `ValidationError` for a corrupt or truncated file. Structural
validity itself is the external codestream-validator capability `ext.jp2_valid`. -/
def validate_jp2 (ext : Ext) (p : String) (st : PSt) : Except Err Unit × PSt :=
  match fsGet st.fs p with
  | none => (Except.error Err.io, recordEv st (Ev.jp2Check p))
  | some d =>
    if ext.jp2_valid d then (Except.ok (), recordEv st (Ev.jp2Check p))
    else (Except.error Err.validation, recordEv st (Ev.jp2Check p))

/-- `Transform.extract_xmp` (transform.py lines 139-150): open the image with
libxmp (`XMPFiles(file_path=image_file)`), then inside a try block read the
packet (`get_xmp`), open the sidecar in append mode `'a'` (which creates the
file when absent and keeps existing bytes) and write the serialized packet;
the finally block closes the libxmp handle on every path. -/
def extract_xmp (ext : Ext) (image_file xmp_file_path : String) (st : PSt) :
    Except Err Unit × PSt :=
  andThen (readFile st image_file) fun img st =>
  andThen (liftE (ext.xmp_files_open img) st) fun _ st =>
  let stOpen := { st with xmpHandles := st.xmpHandles + 1 }
  let body :=
    andThen (liftE (ext.get_xmp img) stOpen) fun x st =>
    let old := (fsGet st.fs xmp_file_path).getD []
    let stA := writeFile st xmp_file_path old
    andThen (liftE (ext.serialize_to_unicode x) stA) fun s st =>
    (Except.ok (), recordEv (writeFile st xmp_file_path (old ++ s)) (Ev.xmpWrite xmp_file_path))
  (body.1, { body.2 with xmpHandles := body.2.xmpHandles - 1 })

/-- `Transform.generate_jp2_derivatives_from_tiff` (transform.py lines 123-136):
generate the lossless JP2 from the scratch TIFF into the output folder and
validate it; then apply the ICC profile to the scratch TIFF in place, generate
the lossy JP2 from it and validate that too. -/
def generate_jp2_derivatives_from_tiff (cfg : Transform) (ext : Ext)
    (scratch_tiff_file output_folder : String) (st : PSt) :
    Except Err (List String) × PSt :=
  let lossless_filepath := pjoin output_folder cfg.lossless_jp2_filename
  andThen (readFile st scratch_tiff_file) fun d st =>
  andThen (liftE (ext.convert_to_jpeg2000 d true) st) fun ld st =>
  let st := recordEv (writeFile st lossless_filepath ld)
    (Ev.lossless scratch_tiff_file lossless_filepath)
  andThen (validate_jp2 ext lossless_filepath st) fun _ st =>
  let lossy_filepath := pjoin output_folder cfg.lossy_jp2_filename
  andThen (readFile st scratch_tiff_file) fun d1 st =>
  andThen (liftE (ext.convert_tiff_colour_profile d1 cfg.icc_profile) st) fun pd st =>
  let st := recordEv (writeFile st scratch_tiff_file pd) (Ev.profile scratch_tiff_file)
  andThen (readFile st scratch_tiff_file) fun d2 st =>
  andThen (liftE (ext.convert_colour_to_jpeg2000 d2 false) st) fun lyd st =>
  let st := recordEv (writeFile st lossy_filepath lyd)
    (Ev.lossy scratch_tiff_file lossy_filepath)
  andThen (validate_jp2 ext lossy_filepath st) fun _ st =>
  (Except.ok [lossless_filepath, lossy_filepath], st)

/-- The try-block body of `Transform.generate_derivatives_from_tiff`
(transform.py lines 93-117): convert the source TIFF to the output jpg,
optionally extract the XMP sidecar, optionally copy the TIFF into the output
folder, copy the TIFF into the scratch folder, optionally repage the scratch
copy in place, and generate the JP2 derivatives from the scratch copy. -/
def from_tiff_body (cfg : Transform) (ext : Ext)
    (tiff_file output_folder scratch_folder uuid : String)
    (include_tiff save_xmp repage_image : Bool) (st : PSt) :
    Except Err (List String) × PSt :=
  let jpeg_filepath := pjoin output_folder cfg.jpg_filename
  andThen (readFile st tiff_file) fun src st =>
  andThen (liftE (ext.convert_to_jpg src) st) fun jd st =>
  let st := recordEv (writeFile st jpeg_filepath jd) (Ev.jpgConv tiff_file jpeg_filepath)
  andThen
    (if save_xmp then
      andThen (extract_xmp ext tiff_file (pjoin output_folder cfg.xmp_filename) st)
        fun _ st => (Except.ok [pjoin output_folder cfg.xmp_filename], st)
    else (Except.ok [], st)) fun g1 st =>
  andThen
    (if include_tiff then
      andThen (readFile st tiff_file) fun d st =>
        let tp := pjoin output_folder cfg.tiff_filename
        (Except.ok [tp], recordEv (writeFile st tp d) (Ev.fileCopy tiff_file tp))
    else (Except.ok [], st)) fun g2 st =>
  let scratch_tiff_filepath := pjoin scratch_folder (uuid ++ ".tiff")
  andThen (readFile st tiff_file) fun d st =>
  let st := recordEv (writeFile st scratch_tiff_filepath d)
    (Ev.fileCopy tiff_file scratch_tiff_filepath)
  andThen
    (if repage_image then
      andThen (readFile st scratch_tiff_filepath) fun rd st =>
      andThen (liftE (ext.repage_image rd) st) fun rp st =>
        (Except.ok (), recordEv (writeFile st scratch_tiff_filepath rp)
          (Ev.repage scratch_tiff_filepath))
    else (Except.ok (), st)) fun _ st =>
  andThen (generate_jp2_derivatives_from_tiff cfg ext scratch_tiff_filepath output_folder st)
    fun g3 st =>
  (Except.ok (jpeg_filepath :: (g1 ++ g2 ++ g3)), st)

/-- `Transform.generate_derivatives_from_tiff` (transform.py lines 77-121):
create the scratch folder (`tempfile.mkdtemp`), run the body, and in a finally
block best-effort delete the scratch folder, preserving the body's result. -/
def generate_derivatives_from_tiff (cfg : Transform) (ext : Ext)
    (tiff_file output_folder scratch_folder uuid : String)
    (include_tiff save_xmp repage_image : Bool) (st : PSt) :
    Except Err (List String) × PSt :=
  let stScr := { st with scratchLive := true }
  let body := from_tiff_body cfg ext tiff_file output_folder scratch_folder uuid
    include_tiff save_xmp repage_image stScr
  (body.1, rmtree ext body.2 scratch_folder)

/-- The try-block body of `Transform.generate_derivatives_from_jpg`
(transform.py lines 57-72): copy the source jpg into the output folder,
optionally extract the XMP sidecar from the copy, convert the copy to a
scratch TIFF (with `-strip` when stripping embedded metadata), and generate
the JP2 derivatives from the scratch TIFF. -/
def from_jpg_body (cfg : Transform) (ext : Ext)
    (jpg_file output_folder scratch_folder uuid : String)
    (strip_embedded_metadata save_xmp : Bool) (st : PSt) :
    Except Err (List String) × PSt :=
  let jpeg_filepath := pjoin output_folder cfg.jpg_filename
  andThen (readFile st jpg_file) fun src st =>
  let st := recordEv (writeFile st jpeg_filepath src) (Ev.fileCopy jpg_file jpeg_filepath)
  andThen
    (if save_xmp then
      andThen (extract_xmp ext jpeg_filepath (pjoin output_folder cfg.xmp_filename) st)
        fun _ st => (Except.ok [pjoin output_folder cfg.xmp_filename], st)
    else (Except.ok [], st)) fun g1 st =>
  let scratch_tiff_filepath := pjoin scratch_folder (uuid ++ ".tif")
  let tif_conversion_options := if strip_embedded_metadata then ["-strip"] else []
  andThen (readFile st jpeg_filepath) fun jd st =>
  andThen (liftE (ext.convert_to_tiff jd tif_conversion_options) st) fun td st =>
  let st := recordEv (writeFile st scratch_tiff_filepath td)
    (Ev.tiffConv jpeg_filepath scratch_tiff_filepath)
  andThen (generate_jp2_derivatives_from_tiff cfg ext scratch_tiff_filepath output_folder st)
    fun g3 st =>
  (Except.ok (jpeg_filepath :: (g1 ++ g3)), st)

/-- `Transform.generate_derivatives_from_jpg` (transform.py lines 43-75):
create the scratch folder, run the body, and in a finally block best-effort
delete the scratch folder, preserving the body's result. -/
def generate_derivatives_from_jpg (cfg : Transform) (ext : Ext)
    (jpg_file output_folder scratch_folder uuid : String)
    (strip_embedded_metadata save_xmp : Bool) (st : PSt) :
    Except Err (List String) × PSt :=
  let stScr := { st with scratchLive := true }
  let body := from_jpg_body cfg ext jpg_file output_folder scratch_folder uuid
    strip_embedded_metadata save_xmp stScr
  (body.1, rmtree ext body.2 scratch_folder)

/-- Modelled from the spec: the `check_lossless` phase of
`DerivativeFilesGenerator` (derivative_files_generator.py is part of this
repository but is not under src/; its tests in src/tests/test_image.py call it
with `check_lossless=True`). Spec section 4.1 steps 7-8: generate the lossless
JPEG2000 from the scratch TIFF into the output directory; if `checkLossless`,
compute the pixel checksum of the source and of the produced lossless JP2 and
fail with a validation error when they differ; then run structural validation
on the lossless JP2. -/
def generate_jp2_with_check_lossless (cfg : Transform) (ext : Ext)
    (source_file scratch_tiff_file output_folder : String) (check_lossless : Bool)
    (st : PSt) : Except Err (List String) × PSt :=
  let lossless_filepath := pjoin output_folder cfg.lossless_jp2_filename
  andThen (readFile st scratch_tiff_file) fun d st =>
  andThen (liftE (ext.convert_to_jpeg2000 d true) st) fun ld st =>
  let st := recordEv (writeFile st lossless_filepath ld)
    (Ev.lossless scratch_tiff_file lossless_filepath)
  andThen
    (if check_lossless then
      andThen (readFile st source_file) fun srcd st =>
      andThen (readFile st lossless_filepath) fun jd st =>
      let st := recordEv (recordEv st (Ev.checksum source_file)) (Ev.checksum lossless_filepath)
      if ext.generate_pixel_checksum srcd = ext.generate_pixel_checksum jd then
        (Except.ok (), st)
      else (Except.error Err.validation, st)
    else (Except.ok (), st)) fun _ st =>
  andThen (validate_jp2 ext lossless_filepath st) fun _ st =>
  (Except.ok [lossless_filepath], st)

/-- One step of the validation-discipline automaton: the state holds the path
of a just-generated JP2 that still awaits its structural check (`some p`), or
`none` when no check is pending. A pending check must be discharged by the
very next event, a `jp2Check` on the same path; generating a JP2 while a check
is pending, or ending on any other event, violates the discipline. -/
def ivStep : Option String → Ev → Option (Option String)
  | some p, Ev.jp2Check q => if p == q then some none else none
  | some _, _ => none
  | none, Ev.lossless _ p => some (some p)
  | none, Ev.lossy _ p => some (some p)
  | none, _ => some none

/-- Run the validation-discipline automaton over a trace. -/
def ivRun : Option String → List Ev → Option (Option String)
  | s, [] => some s
  | s, e :: rest =>
    match ivStep s e with
    | none => none
    | some s2 => ivRun s2 rest

/-- `true` when every lossless/lossy generation event in the trace is
immediately followed by a structural-validation event on the generated path
(and no generated JP2 is left unchecked at the end of the trace). -/
def immediatelyValidated (l : List Ev) : Bool := ivRun none l == some none

/-- `true` when every in-place destructive step in the trace (offset repage,
ICC-profile application) touched a path inside the scratch directory. -/
def destructiveInScratch (scratch : String) (l : List Ev) : Bool :=
  l.all (fun e =>
    match e with
    | Ev.repage p => dirHas scratch p
    | Ev.profile p => dirHas scratch p
    | _ => true)

/-- `true` when no file in the filesystem lies inside the given directory. -/
def dirGone (dir : String) (fs : FS) : Bool :=
  fs.all (fun e => !(dirHas dir e.1))

/-- The files currently inside a directory. -/
def filesIn (dir : String) (fs : FS) : FS :=
  fs.filter (fun e => dirHas dir e.1)

deriving instance DecidableEq for Except

/-! ### Reduction and frame lemmas for the embedding -/

@[simp] theorem andThen_ok {α β : Type} (a : α) (st : PSt)
    (f : α → PSt → Except Err β × PSt) : andThen (Except.ok a, st) f = f a st := rfl

@[simp] theorem andThen_error {α β : Type} (e : Err) (st : PSt)
    (f : α → PSt → Except Err β × PSt) :
    andThen (Except.error e, st) f = (Except.error e, st) := rfl

@[simp] theorem liftE_eq {α : Type} (r : Except Err α) (st : PSt) : liftE r st = (r, st) := rfl

@[simp] theorem recordEv_fs (st : PSt) (e : Ev) : (recordEv st e).fs = st.fs := rfl

@[simp] theorem recordEv_scratchLive (st : PSt) (e : Ev) :
    (recordEv st e).scratchLive = st.scratchLive := rfl

@[simp] theorem recordEv_xmpHandles (st : PSt) (e : Ev) :
    (recordEv st e).xmpHandles = st.xmpHandles := rfl

@[simp] theorem recordEv_events (st : PSt) (e : Ev) :
    (recordEv st e).events = st.events ++ [e] := rfl

@[simp] theorem writeFile_fs (st : PSt) (p : String) (b : Bytes) :
    (writeFile st p b).fs = fsSet st.fs p b := rfl

@[simp] theorem writeFile_scratchLive (st : PSt) (p : String) (b : Bytes) :
    (writeFile st p b).scratchLive = st.scratchLive := rfl

@[simp] theorem writeFile_xmpHandles (st : PSt) (p : String) (b : Bytes) :
    (writeFile st p b).xmpHandles = st.xmpHandles := rfl

@[simp] theorem writeFile_events (st : PSt) (p : String) (b : Bytes) :
    (writeFile st p b).events = st.events := rfl

theorem readFile_snd (st : PSt) (p : String) : (readFile st p).2 = st := by
  unfold readFile
  split <;> rfl

theorem readFile_of_some {st : PSt} {p : String} {b : Bytes} (h : fsGet st.fs p = some b) :
    readFile st p = (Except.ok b, st) := by
  unfold readFile
  rw [h]

@[simp] theorem fsGet_fsSet_self (fs : FS) (p : String) (b : Bytes) :
    fsGet (fsSet fs p b) p = some b := by
  simp [fsGet, fsSet, List.find?]

theorem fsGet_filter_key_ne {fs : FS} {q p : String} (h : q ≠ p) :
    fsGet (fs.filter (fun e => !(e.1 == p))) q = fsGet fs q := by
  induction fs with
  | nil => rfl
  | cons e rest ih =>
    unfold fsGet
    by_cases hk : e.1 = p
    · rw [List.filter_cons_of_neg (by simp [hk]),
        List.find?_cons_of_neg _ (by simp [hk]; exact fun hh => h hh.symm)]
      exact ih
    · by_cases hq : e.1 = q
      · rw [List.filter_cons_of_pos (by simp [hk]),
          List.find?_cons_of_pos _ (by simp [hq]), List.find?_cons_of_pos _ (by simp [hq])]
      · rw [List.filter_cons_of_pos (by simp [hk]),
          List.find?_cons_of_neg _ (by simp [hq]), List.find?_cons_of_neg _ (by simp [hq])]
        exact ih

theorem fsGet_fsSet_ne {q p : String} (fs : FS) (b : Bytes) (h : q ≠ p) :
    fsGet (fsSet fs p b) q = fsGet fs q := by
  unfold fsSet
  have hhead : fsGet ((p, b) :: fs.filter (fun e => !(e.1 == p))) q =
      fsGet (fs.filter (fun e => !(e.1 == p))) q := by
    unfold fsGet
    rw [List.find?_cons_of_neg _ (by simp; exact fun hh => h hh.symm)]
  rw [hhead, fsGet_filter_key_ne h]

theorem fsGet_filter_none {fs : FS} {q : String} (f : String × Bytes → Bool)
    (h : fsGet fs q = none) : fsGet (fs.filter f) q = none := by
  induction fs with
  | nil => rfl
  | cons e rest ih =>
    unfold fsGet at h ⊢
    simp only [List.find?] at h
    by_cases hq : (e.1 == q) = true
    · rw [hq] at h
      simp at h
    · rw [Bool.not_eq_true] at hq
      rw [hq] at h
      simp only [List.filter]
      by_cases hf : f e = true
      · rw [hf]
        simp only [List.find?, hq]
        exact ih h
      · rw [Bool.not_eq_true] at hf
        rw [hf]
        exact ih h

theorem fsGet_rmtree_filter {fs : FS} {dir q : String} (h : dirHas dir q = false) :
    fsGet (fs.filter (fun e => !(dirHas dir e.1))) q = fsGet fs q := by
  induction fs with
  | nil => rfl
  | cons e rest ih =>
    by_cases hq : (e.1 == q) = true
    · have : e.1 = q := by
        exact eq_of_beq hq
      have hkeep : (!(dirHas dir e.1)) = true := by
        rw [this, h]
        rfl
      simp only [List.filter, hkeep]
      unfold fsGet
      simp only [List.find?, hq]
    · rw [Bool.not_eq_true] at hq
      unfold fsGet at ih ⊢
      simp only [List.filter]
      by_cases hf : (!(dirHas dir e.1)) = true
      · rw [hf]
        simp only [List.find?, hq]
        exact ih
      · rw [Bool.not_eq_true] at hf
        rw [hf]
        simp only [List.find?, hq]
        exact ih

theorem isPref_append_right (l m : List Char) : isPref l (l ++ m) = true := by
  induction l with
  | nil => rfl
  | cons a t ih => simp [isPref, ih]

theorem pjoin_data (a b : String) : (pjoin a b).data = a.data ++ '/' :: b.data := by
  unfold pjoin
  rw [String.data_append, String.data_append, show ("/").data = ['/'] from rfl]
  simp

theorem dirHas_pjoin (a b : String) : dirHas a (pjoin a b) = true := by
  unfold dirHas
  rw [pjoin_data, show a.data ++ '/' :: b.data = (a.data ++ ['/']) ++ b.data by simp]
  exact isPref_append_right _ _

theorem pjoin_ne_right {b c : String} (a : String) (h : b ≠ c) : pjoin a b ≠ pjoin a c := by
  intro he
  apply h
  have hd := congrArg String.data he
  rw [pjoin_data, pjoin_data] at hd
  have := List.append_cancel_left hd
  exact String.ext (by injection this)

theorem ne_of_dirHas {d p q : String} (hp : dirHas d p = true) (hq : dirHas d q = false) :
    p ≠ q := by
  intro h
  rw [h, hq] at hp
  cases hp

theorem filter_swap {α : Type} (f g : α → Bool) (l : List α) :
    (l.filter f).filter g = (l.filter g).filter f := by
  induction l with
  | nil => rfl
  | cons a t ih =>
    by_cases hf : f a = true <;> by_cases hg : g a = true <;>
      simp [List.filter_cons, hf, hg, ih]

theorem filesIn_fsSet_in {dir p : String} (fs : FS) (b : Bytes) (h : dirHas dir p = true) :
    filesIn dir (fsSet fs p b) = (p, b) :: (filesIn dir fs).filter (fun e => !(e.1 == p)) := by
  unfold filesIn fsSet
  rw [List.filter_cons]
  simp only [h, if_true]
  rw [filter_swap]

theorem filesIn_fsSet_out {dir p : String} (fs : FS) (b : Bytes) (h : dirHas dir p = false) :
    filesIn dir (fsSet fs p b) = filesIn dir fs := by
  unfold filesIn fsSet
  rw [List.filter_cons]
  simp only [h, if_false, Bool.false_eq_true]
  rw [filter_swap]
  apply List.filter_eq_self.mpr
  intro e he
  have hdir : dirHas dir e.1 = true := by
    have := List.of_mem_filter he
    simpa using this
  simp only [Bool.not_eq_eq_eq_not, Bool.not_true, beq_eq_false_iff_ne, ne_eq]
  intro hep
  rw [hep, h] at hdir
  cases hdir

theorem filesIn_rmtree_filter {dir scr : String} (fs : FS)
    (hdisj : ∀ t, dirHas dir t = true → dirHas scr t = false) :
    filesIn dir (fs.filter (fun e => !(dirHas scr e.1))) = filesIn dir fs := by
  unfold filesIn
  rw [filter_swap]
  apply List.filter_eq_self.mpr
  intro e he
  have hdir : dirHas dir e.1 = true := by
    have := List.of_mem_filter he
    simpa using this
  simp [hdisj e.1 hdir]

theorem filesIn_key_out {dir p : String} (fs : FS) (h : dirHas dir p = false) :
    (filesIn dir fs).filter (fun e => !(e.1 == p)) = filesIn dir fs := by
  apply List.filter_eq_self.mpr
  intro e he
  have hdir : dirHas dir e.1 = true := by
    have := List.of_mem_filter he
    simpa [filesIn] using this
  simp only [Bool.not_eq_eq_eq_not, Bool.not_true, beq_eq_false_iff_ne, ne_eq]
  intro hep
  rw [hep, h] at hdir
  cases hdir

theorem fsGet_none_of_filesIn_nil {dir q : String} {fs : FS}
    (hnil : filesIn dir fs = []) (hq : dirHas dir q = true) : fsGet fs q = none := by
  cases hfs : fsGet fs q with
  | none => rfl
  | some b =>
    exfalso
    unfold fsGet at hfs
    cases hfind : fs.find? (fun e => e.1 == q) with
    | none => rw [hfind] at hfs; cases hfs
    | some e =>
      have hmem := List.mem_of_find?_eq_some hfind
      have hkey : e.1 = q := by
        have := List.find?_some hfind
        simpa using this
      have : e ∈ filesIn dir fs := by
        apply List.mem_filter_of_mem hmem
        rw [hkey]
        exact hq
      rw [hnil] at this
      cases this

/-- Predicate transport along a sequencing step. -/
theorem andThen_pred {α β : Type} (P : PSt → Prop) (x : Except Err α × PSt)
    (f : α → PSt → Except Err β × PSt) (hx : P x.2)
    (hf : ∀ a st, P st → P ((f a st).2)) : P ((andThen x f).2) := by
  obtain ⟨r, st⟩ := x
  cases r with
  | ok a => exact hf a st hx
  | error e => exact hx

theorem pst_eta_handles (st : PSt) :
    ({ st with xmpHandles := st.xmpHandles + 1 - 1 } : PSt) = st := by
  cases st
  simp

/-! ### Branch equations for extract_xmp -/

theorem extract_xmp_eq_noimg {ext : Ext} {i x : String} {st : PSt}
    (h1 : fsGet st.fs i = none) :
    extract_xmp ext i x st = (Except.error Err.io, st) := by
  unfold extract_xmp readFile
  rw [h1]
  rfl

theorem extract_xmp_eq_openfail {ext : Ext} {i x : String} {st : PSt} {img : Bytes} {e : Err}
    (h1 : fsGet st.fs i = some img) (h2 : ext.xmp_files_open img = Except.error e) :
    extract_xmp ext i x st = (Except.error e, st) := by
  unfold extract_xmp readFile
  rw [h1]
  simp [h2]

theorem extract_xmp_eq_getfail {ext : Ext} {i x : String} {st : PSt} {img : Bytes} {e : Err}
    (h1 : fsGet st.fs i = some img) (h2 : ext.xmp_files_open img = Except.ok ())
    (h3 : ext.get_xmp img = Except.error e) :
    extract_xmp ext i x st = (Except.error e, st) := by
  unfold extract_xmp readFile
  rw [h1]
  simp only [andThen_ok, liftE_eq, h2, h3, andThen_error]
  cases st
  simp

theorem extract_xmp_eq_serfail {ext : Ext} {i x : String} {st : PSt} {img xv : Bytes} {e : Err}
    (h1 : fsGet st.fs i = some img) (h2 : ext.xmp_files_open img = Except.ok ())
    (h3 : ext.get_xmp img = Except.ok xv) (h4 : ext.serialize_to_unicode xv = Except.error e) :
    extract_xmp ext i x st =
      (Except.error e, writeFile st x ((fsGet st.fs x).getD [])) := by
  unfold extract_xmp readFile
  rw [h1]
  simp only [andThen_ok, liftE_eq, h2, h3, h4, andThen_error]
  cases st
  simp [writeFile]

theorem extract_xmp_eq_ok {ext : Ext} {i x : String} {st : PSt} {img xv s : Bytes}
    (h1 : fsGet st.fs i = some img) (h2 : ext.xmp_files_open img = Except.ok ())
    (h3 : ext.get_xmp img = Except.ok xv) (h4 : ext.serialize_to_unicode xv = Except.ok s) :
    extract_xmp ext i x st =
      (Except.ok (), recordEv
        (writeFile (writeFile st x ((fsGet st.fs x).getD []))
          x ((fsGet st.fs x).getD [] ++ s))
        (Ev.xmpWrite x)) := by
  unfold extract_xmp readFile
  rw [h1]
  simp only [andThen_ok, liftE_eq, h2, h3, h4]
  cases st
  simp [writeFile, recordEv]

theorem ivRun_append (s : Option String) (l m : List Ev) :
    ivRun s (l ++ m) =
      match ivRun s l with
      | none => none
      | some s2 => ivRun s2 m := by
  induction l generalizing s with
  | nil => rfl
  | cons e t ih =>
    simp only [List.cons_append, ivRun]
    cases h : ivStep s e with
    | none => simp
    | some s2 => simp [ih s2]

theorem destructive_append (s : String) (l m : List Ev) :
    destructiveInScratch s (l ++ m) =
      (destructiveInScratch s l && destructiveInScratch s m) := by
  simp [destructiveInScratch, List.all_append]

theorem validate_jp2_snd (ext : Ext) (p : String) (st : PSt) :
    (validate_jp2 ext p st).2 = recordEv st (Ev.jp2Check p) := by
  unfold validate_jp2
  cases fsGet st.fs p with
  | none => rfl
  | some d => by_cases hv : ext.jp2_valid d = true <;> simp [hv]

theorem validate_jp2_of_valid {ext : Ext} {p : String} {st : PSt} {d : Bytes}
    (h1 : fsGet st.fs p = some d) (h2 : ext.jp2_valid d = true) :
    validate_jp2 ext p st = (Except.ok (), recordEv st (Ev.jp2Check p)) := by
  unfold validate_jp2
  rw [h1]
  simp [h2]

theorem validate_jp2_of_invalid {ext : Ext} {p : String} {st : PSt} {d : Bytes}
    (h1 : fsGet st.fs p = some d) (h2 : ext.jp2_valid d = false) :
    validate_jp2 ext p st = (Except.error Err.validation, recordEv st (Ev.jp2Check p)) := by
  unfold validate_jp2
  rw [h1]
  simp [h2]

theorem fsGet_fsSet_cases (fs : FS) (p q : String) (b : Bytes) :
    fsGet (fsSet fs p b) q = some b ∨ fsGet (fsSet fs p b) q = fsGet fs q := by
  by_cases h : q = p
  · subst h
    exact Or.inl (fsGet_fsSet_self fs q b)
  · exact Or.inr (fsGet_fsSet_ne fs b h)

/-- Frame: `generate_jp2_derivatives_from_tiff` only writes the lossless path,
the lossy path and the scratch TIFF; any other file is untouched, whatever the
oracle outcomes. -/
theorem gen_jp2_fs_ne {cfg : Transform} {ext : Ext} {scr out q : String} {st : PSt}
    (hll : q ≠ pjoin out cfg.lossless_jp2_filename)
    (hly : q ≠ pjoin out cfg.lossy_jp2_filename) (hscr : q ≠ scr) :
    fsGet (generate_jp2_derivatives_from_tiff cfg ext scr out st).2.fs q = fsGet st.fs q := by
  unfold generate_jp2_derivatives_from_tiff
  refine andThen_pred (fun s => fsGet s.fs q = fsGet st.fs q) _ _ ?_ ?_
  · rw [readFile_snd]
  · intro d st1 h1
    refine andThen_pred (fun s => fsGet s.fs q = fsGet st.fs q) _ _ h1 ?_
    intro ld st2 h2
    refine andThen_pred (fun s => fsGet s.fs q = fsGet st.fs q) _ _ ?_ ?_
    · rw [validate_jp2_snd]
      simp only [recordEv_fs, writeFile_fs]
      rw [fsGet_fsSet_ne _ _ hll]
      exact h2
    · intro u st3 h3
      refine andThen_pred (fun s => fsGet s.fs q = fsGet st.fs q) _ _ ?_ ?_
      · rw [readFile_snd]
        exact h3
      · intro d1 st4 h4
        refine andThen_pred (fun s => fsGet s.fs q = fsGet st.fs q) _ _ h4 ?_
        intro pd st5 h5
        refine andThen_pred (fun s => fsGet s.fs q = fsGet st.fs q) _ _ ?_ ?_
        · rw [readFile_snd]
          simp only [recordEv_fs, writeFile_fs]
          rw [fsGet_fsSet_ne _ _ hscr]
          exact h5
        · intro d2 st6 h6
          refine andThen_pred (fun s => fsGet s.fs q = fsGet st.fs q) _ _ h6 ?_
          intro lyd st7 h7
          refine andThen_pred (fun s => fsGet s.fs q = fsGet st.fs q) _ _ ?_ ?_
          · rw [validate_jp2_snd]
            simp only [recordEv_fs, writeFile_fs]
            rw [fsGet_fsSet_ne _ _ hly]
            exact h7
          · intro u2 st8 h8
            exact h8

/-- Frame: the only destructive in-place step `generate_jp2_derivatives_from_tiff`
records is the ICC-profile application, and it is applied to the scratch TIFF. -/
theorem gen_jp2_destructive {cfg : Transform} {ext : Ext} {scratch scr out : String} {st : PSt}
    (hin : dirHas scratch scr = true)
    (h0 : destructiveInScratch scratch st.events = true) :
    destructiveInScratch scratch
      (generate_jp2_derivatives_from_tiff cfg ext scr out st).2.events = true := by
  unfold generate_jp2_derivatives_from_tiff
  refine andThen_pred (fun s => destructiveInScratch scratch s.events = true) _ _ ?_ ?_
  · rw [readFile_snd]
    exact h0
  · intro d st1 h1
    refine andThen_pred (fun s => destructiveInScratch scratch s.events = true) _ _ h1 ?_
    intro ld st2 h2
    refine andThen_pred (fun s => destructiveInScratch scratch s.events = true) _ _ ?_ ?_
    · rw [validate_jp2_snd]
      simp [destructive_append, destructiveInScratch, h2]
      simp [destructiveInScratch] at h2
      exact h2
    · intro u st3 h3
      refine andThen_pred (fun s => destructiveInScratch scratch s.events = true) _ _ ?_ ?_
      · rw [readFile_snd]
        exact h3
      · intro d1 st4 h4
        refine andThen_pred (fun s => destructiveInScratch scratch s.events = true) _ _ h4 ?_
        intro pd st5 h5
        refine andThen_pred (fun s => destructiveInScratch scratch s.events = true) _ _ ?_ ?_
        · rw [readFile_snd]
          simp only [recordEv_events, writeFile_events]
          rw [destructive_append, h5]
          simp [destructiveInScratch, hin]
        · intro d2 st6 h6
          refine andThen_pred (fun s => destructiveInScratch scratch s.events = true) _ _ h6 ?_
          intro lyd st7 h7
          refine andThen_pred (fun s => destructiveInScratch scratch s.events = true) _ _ ?_ ?_
          · rw [validate_jp2_snd]
            simp only [recordEv_events, writeFile_events]
            rw [destructive_append, destructive_append, h7]
            simp [destructiveInScratch]
          · intro u2 st8 h8
            exact h8

theorem gen_jp2_eq_ok {cfg : Transform} {ext : Ext} {scr out : String} {st : PSt}
    {d ld pd lyd : Bytes}
    (h1 : fsGet st.fs scr = some d)
    (h2 : ext.convert_to_jpeg2000 d true = Except.ok ld)
    (h3 : ext.jp2_valid ld = true)
    (h4 : scr ≠ pjoin out cfg.lossless_jp2_filename)
    (h5 : ext.convert_tiff_colour_profile d cfg.icc_profile = Except.ok pd)
    (h6 : ext.convert_colour_to_jpeg2000 pd false = Except.ok lyd)
    (h7 : ext.jp2_valid lyd = true) :
    generate_jp2_derivatives_from_tiff cfg ext scr out st =
      (Except.ok [pjoin out cfg.lossless_jp2_filename, pjoin out cfg.lossy_jp2_filename],
       recordEv (recordEv (writeFile (recordEv (writeFile (recordEv (recordEv
         (writeFile st (pjoin out cfg.lossless_jp2_filename) ld)
         (Ev.lossless scr (pjoin out cfg.lossless_jp2_filename)))
         (Ev.jp2Check (pjoin out cfg.lossless_jp2_filename)))
         scr pd) (Ev.profile scr))
         (pjoin out cfg.lossy_jp2_filename) lyd)
         (Ev.lossy scr (pjoin out cfg.lossy_jp2_filename)))
         (Ev.jp2Check (pjoin out cfg.lossy_jp2_filename))) := by
  simp only [generate_jp2_derivatives_from_tiff, validate_jp2, readFile, liftE_eq,
    andThen_ok, recordEv_fs, writeFile_fs, fsGet_fsSet_self, fsGet_fsSet_ne _ _ h4,
    h1, h2, h3, h5, h6, h7, if_true]

theorem gen_jp2_eq_noread {cfg : Transform} {ext : Ext} {scr out : String} {st : PSt}
    (h1 : fsGet st.fs scr = none) :
    generate_jp2_derivatives_from_tiff cfg ext scr out st = (Except.error Err.io, st) := by
  simp only [generate_jp2_derivatives_from_tiff, readFile, h1, andThen_error]

theorem gen_jp2_eq_llconvfail {cfg : Transform} {ext : Ext} {scr out : String} {st : PSt}
    {d : Bytes} {e : Err}
    (h1 : fsGet st.fs scr = some d)
    (h2 : ext.convert_to_jpeg2000 d true = Except.error e) :
    generate_jp2_derivatives_from_tiff cfg ext scr out st = (Except.error e, st) := by
  simp only [generate_jp2_derivatives_from_tiff, readFile, liftE_eq, andThen_ok,
    andThen_error, h1, h2]

theorem gen_jp2_eq_invalid_ll {cfg : Transform} {ext : Ext} {scr out : String} {st : PSt}
    {d ld : Bytes}
    (h1 : fsGet st.fs scr = some d)
    (h2 : ext.convert_to_jpeg2000 d true = Except.ok ld)
    (h3 : ext.jp2_valid ld = false) :
    generate_jp2_derivatives_from_tiff cfg ext scr out st =
      (Except.error Err.validation,
       recordEv (recordEv (writeFile st (pjoin out cfg.lossless_jp2_filename) ld)
         (Ev.lossless scr (pjoin out cfg.lossless_jp2_filename)))
         (Ev.jp2Check (pjoin out cfg.lossless_jp2_filename))) := by
  simp only [generate_jp2_derivatives_from_tiff, validate_jp2, readFile, liftE_eq,
    andThen_ok, andThen_error, recordEv_fs, writeFile_fs, fsGet_fsSet_self, h1, h2, h3,
    Bool.false_eq_true, if_false]

theorem gen_jp2_eq_profilefail {cfg : Transform} {ext : Ext} {scr out : String} {st : PSt}
    {d ld : Bytes} {e : Err}
    (h1 : fsGet st.fs scr = some d)
    (h2 : ext.convert_to_jpeg2000 d true = Except.ok ld)
    (h3 : ext.jp2_valid ld = true)
    (h4 : scr ≠ pjoin out cfg.lossless_jp2_filename)
    (h5 : ext.convert_tiff_colour_profile d cfg.icc_profile = Except.error e) :
    generate_jp2_derivatives_from_tiff cfg ext scr out st =
      (Except.error e,
       recordEv (recordEv (writeFile st (pjoin out cfg.lossless_jp2_filename) ld)
         (Ev.lossless scr (pjoin out cfg.lossless_jp2_filename)))
         (Ev.jp2Check (pjoin out cfg.lossless_jp2_filename))) := by
  simp only [generate_jp2_derivatives_from_tiff, validate_jp2, readFile, liftE_eq,
    andThen_ok, andThen_error, recordEv_fs, writeFile_fs, fsGet_fsSet_self,
    fsGet_fsSet_ne _ _ h4, h1, h2, h3, h5, if_true]

theorem gen_jp2_eq_lossyfail {cfg : Transform} {ext : Ext} {scr out : String} {st : PSt}
    {d ld pd : Bytes} {e : Err}
    (h1 : fsGet st.fs scr = some d)
    (h2 : ext.convert_to_jpeg2000 d true = Except.ok ld)
    (h3 : ext.jp2_valid ld = true)
    (h4 : scr ≠ pjoin out cfg.lossless_jp2_filename)
    (h5 : ext.convert_tiff_colour_profile d cfg.icc_profile = Except.ok pd)
    (h6 : ext.convert_colour_to_jpeg2000 pd false = Except.error e) :
    generate_jp2_derivatives_from_tiff cfg ext scr out st =
      (Except.error e,
       recordEv (writeFile (recordEv (recordEv
         (writeFile st (pjoin out cfg.lossless_jp2_filename) ld)
         (Ev.lossless scr (pjoin out cfg.lossless_jp2_filename)))
         (Ev.jp2Check (pjoin out cfg.lossless_jp2_filename)))
         scr pd) (Ev.profile scr)) := by
  simp only [generate_jp2_derivatives_from_tiff, validate_jp2, readFile, liftE_eq,
    andThen_ok, andThen_error, recordEv_fs, writeFile_fs, fsGet_fsSet_self,
    fsGet_fsSet_ne _ _ h4, h1, h2, h3, h5, h6, if_true]

theorem gen_jp2_eq_invalid_lossy {cfg : Transform} {ext : Ext} {scr out : String} {st : PSt}
    {d ld pd lyd : Bytes}
    (h1 : fsGet st.fs scr = some d)
    (h2 : ext.convert_to_jpeg2000 d true = Except.ok ld)
    (h3 : ext.jp2_valid ld = true)
    (h4 : scr ≠ pjoin out cfg.lossless_jp2_filename)
    (h5 : ext.convert_tiff_colour_profile d cfg.icc_profile = Except.ok pd)
    (h6 : ext.convert_colour_to_jpeg2000 pd false = Except.ok lyd)
    (h7 : ext.jp2_valid lyd = false) :
    generate_jp2_derivatives_from_tiff cfg ext scr out st =
      (Except.error Err.validation,
       recordEv (recordEv (writeFile (recordEv (writeFile (recordEv (recordEv
         (writeFile st (pjoin out cfg.lossless_jp2_filename) ld)
         (Ev.lossless scr (pjoin out cfg.lossless_jp2_filename)))
         (Ev.jp2Check (pjoin out cfg.lossless_jp2_filename)))
         scr pd) (Ev.profile scr))
         (pjoin out cfg.lossy_jp2_filename) lyd)
         (Ev.lossy scr (pjoin out cfg.lossy_jp2_filename)))
         (Ev.jp2Check (pjoin out cfg.lossy_jp2_filename))) := by
  simp only [generate_jp2_derivatives_from_tiff, validate_jp2, readFile, liftE_eq,
    andThen_ok, andThen_error, recordEv_fs, writeFile_fs, fsGet_fsSet_self,
    fsGet_fsSet_ne _ _ h4, h1, h2, h3, h5, h6, h7, if_true, Bool.false_eq_true, if_false]

/-- Frame: `extract_xmp` only ever writes the sidecar path. -/
theorem extract_xmp_fs_ne {ext : Ext} {i x q : String} {st : PSt} (h : q ≠ x) :
    fsGet (extract_xmp ext i x st).2.fs q = fsGet st.fs q := by
  cases h1 : fsGet st.fs i with
  | none => rw [extract_xmp_eq_noimg h1]
  | some img =>
    cases h2 : ext.xmp_files_open img with
    | error e => rw [extract_xmp_eq_openfail h1 h2]
    | ok u =>
      cases u
      cases h3 : ext.get_xmp img with
      | error e => rw [extract_xmp_eq_getfail h1 h2 h3]
      | ok xv =>
        cases h4 : ext.serialize_to_unicode xv with
        | error e =>
          rw [extract_xmp_eq_serfail h1 h2 h3 h4]
          simp [fsGet_fsSet_ne _ _ h]
        | ok s =>
          rw [extract_xmp_eq_ok h1 h2 h3 h4]
          simp [fsGet_fsSet_ne _ _ h]

/-- Frame: `extract_xmp` records no destructive step. -/
theorem extract_xmp_destructive {ext : Ext} {i x scratch : String} {st : PSt}
    (h0 : destructiveInScratch scratch st.events = true) :
    destructiveInScratch scratch (extract_xmp ext i x st).2.events = true := by
  cases h1 : fsGet st.fs i with
  | none => rw [extract_xmp_eq_noimg h1]; exact h0
  | some img =>
    cases h2 : ext.xmp_files_open img with
    | error e => rw [extract_xmp_eq_openfail h1 h2]; exact h0
    | ok u =>
      cases u
      cases h3 : ext.get_xmp img with
      | error e => rw [extract_xmp_eq_getfail h1 h2 h3]; exact h0
      | ok xv =>
        cases h4 : ext.serialize_to_unicode xv with
        | error e =>
          rw [extract_xmp_eq_serfail h1 h2 h3 h4]
          exact h0
        | ok s =>
          rw [extract_xmp_eq_ok h1 h2 h3 h4]
          simp only [recordEv_events, writeFile_events]
          rw [destructive_append, h0]
          simp [destructiveInScratch]

/-! ### Concrete oracle instances used for evaluations -/

/-- An external-collaborator instance on which every capability succeeds:
each conversion tags its input bytes, every JP2 is structurally valid, and the
pixel checksum is the byte count. -/
def extOK : Ext :=
  { convert_to_jpg := fun b => Except.ok (1 :: b)
    convert_to_tiff := fun b _ => Except.ok (2 :: b)
    repage_image := fun b => Except.ok (3 :: b)
    convert_tiff_colour_profile := fun b _ => Except.ok (4 :: b)
    convert_to_jpeg2000 := fun b _ => Except.ok (5 :: b)
    convert_colour_to_jpeg2000 := fun b _ => Except.ok (6 :: b)
    jp2_valid := fun _ => true
    generate_pixel_checksum := fun b => b.length
    xmp_files_open := fun _ => Except.ok ()
    get_xmp := fun b => Except.ok (7 :: b)
    serialize_to_unicode := fun b => Except.ok (8 :: b)
    rmtree_ok := true }

/-- Like `extOK`, but libxmp fails to extract an XMP packet. -/
def extXmpFail : Ext := { extOK with get_xmp := fun _ => Except.error Err.metadata }

/-- An initial state whose filesystem holds exactly the given source file. -/
def stInit (src : String) (b : Bytes) : PSt :=
  { fs := [(src, b)], scratchLive := false, xmpHandles := 0, events := [] }

theorem pair_eq {α β : Type} {a c : α} {b d : β} (h : (a, b) = (c, d)) : a = c ∧ b = d := by
  cases h
  exact ⟨rfl, rfl⟩

/-! ### Claim theorems -/

/-- C10: whenever `extract_xmp` runs against a sidecar file that already
exists, the sidecar's previous bytes are preserved and the serialized packet
is appended after them (append mode, never truncation or overwrite); on every
failure path the sidecar keeps exactly its previous bytes; and the libxmp
file handle is closed on every path, including when packet extraction or
serialization raises. -/
theorem claim10_extract_xmp_append (ext : Ext) (i x : String) (st : PSt)
    (r : Except Err Unit) (st' : PSt) (old : Bytes)
    (hrun : extract_xmp ext i x st = (r, st'))
    (hold : fsGet st.fs x = some old) :
    st'.xmpHandles = st.xmpHandles ∧
    (∀ e, r = Except.error e → fsGet st'.fs x = some old) ∧
    (r = Except.ok () → ∃ s, fsGet st'.fs x = some (old ++ s)) := by
  cases h1 : fsGet st.fs i with
  | none =>
    rw [extract_xmp_eq_noimg h1] at hrun
    obtain ⟨hr, hs⟩ := pair_eq hrun
    subst hs
    refine ⟨rfl, fun e he => hold, fun hok => ?_⟩
    rw [← hr] at hok
    cases hok
  | some img =>
    cases h2 : ext.xmp_files_open img with
    | error e0 =>
      rw [extract_xmp_eq_openfail h1 h2] at hrun
      obtain ⟨hr, hs⟩ := pair_eq hrun
      subst hs
      refine ⟨rfl, fun e he => hold, fun hok => ?_⟩
      rw [← hr] at hok
      cases hok
    | ok u =>
      cases u
      cases h3 : ext.get_xmp img with
      | error e0 =>
        rw [extract_xmp_eq_getfail h1 h2 h3] at hrun
        obtain ⟨hr, hs⟩ := pair_eq hrun
        subst hs
        refine ⟨rfl, fun e he => hold, fun hok => ?_⟩
        rw [← hr] at hok
        cases hok
      | ok xv =>
        cases h4 : ext.serialize_to_unicode xv with
        | error e0 =>
          rw [extract_xmp_eq_serfail h1 h2 h3 h4] at hrun
          obtain ⟨hr, hs⟩ := pair_eq hrun
          subst hs
          refine ⟨rfl, fun e he => ?_, fun hok => ?_⟩
          · simp [writeFile, hold]
          · rw [← hr] at hok
            cases hok
        | ok s =>
          rw [extract_xmp_eq_ok h1 h2 h3 h4] at hrun
          obtain ⟨hr, hs⟩ := pair_eq hrun
          subst hs
          refine ⟨rfl, fun e he => ?_, fun hok => ?_⟩
          · rw [← hr] at he
            cases he
          · exact ⟨s, by simp [writeFile, hold]⟩

/-- A state holding a source image and an existing sidecar, for witnesses. -/
def stXmp : PSt :=
  { fs := [("img", [1]), ("side", [7])], scratchLive := false, xmpHandles := 0, events := [] }

/-- Witness for C10 at a concrete run: the handle count is restored. -/
theorem claim10_extract_xmp_append_w :
    (extract_xmp extOK "img" "side" stXmp).2.xmpHandles = stXmp.xmpHandles :=
  (claim10_extract_xmp_append extOK "img" "side" stXmp
    (extract_xmp extOK "img" "side" stXmp).1 (extract_xmp extOK "img" "side" stXmp).2 [7]
    rfl rfl).1

/-- C1: in every run of the modelled `check_lossless` pipeline phase with the
option set, once the lossless JP2 has been generated the pixel checksum of the
source and of the produced lossless JP2 are both computed (they appear in the
trace right after the generation step), and whenever the two checksums differ
the run fails with a ValidationError. -/
theorem claim1_check_lossless (cfg : Transform) (ext : Ext) (src scr out : String)
    (st : PSt) (r : Except Err (List String)) (st' : PSt) (d ld srcd : Bytes)
    (hrun : generate_jp2_with_check_lossless cfg ext src scr out true st = (r, st'))
    (hd : fsGet st.fs scr = some d)
    (hld : ext.convert_to_jpeg2000 d true = Except.ok ld)
    (hsrc : fsGet st.fs src = some srcd)
    (hne : src ≠ pjoin out cfg.lossless_jp2_filename) :
    (∃ rest, st'.events = st.events ++
       Ev.lossless scr (pjoin out cfg.lossless_jp2_filename) ::
       Ev.checksum src ::
       Ev.checksum (pjoin out cfg.lossless_jp2_filename) :: rest) ∧
    (ext.generate_pixel_checksum srcd ≠ ext.generate_pixel_checksum ld →
      r = Except.error Err.validation) := by
  simp only [generate_jp2_with_check_lossless, readFile, liftE_eq, andThen_ok, if_true,
    recordEv_fs, writeFile_fs, hd, hld, fsGet_fsSet_ne _ _ hne, hsrc, fsGet_fsSet_self] at hrun
  by_cases hc : ext.generate_pixel_checksum srcd = ext.generate_pixel_checksum ld
  · rw [if_pos hc] at hrun
    simp only [andThen_ok, validate_jp2, recordEv_fs, writeFile_fs, fsGet_fsSet_self] at hrun
    cases hv : ext.jp2_valid ld with
    | true =>
      rw [hv] at hrun
      simp only [if_true, andThen_ok] at hrun
      obtain ⟨hr, hs⟩ := pair_eq hrun
      subst hs
      constructor
      · exact ⟨[Ev.jp2Check (pjoin out cfg.lossless_jp2_filename)], by simp⟩
      · intro hcon
        exact absurd hc hcon
    | false =>
      rw [hv] at hrun
      simp only [Bool.false_eq_true, if_false, andThen_error] at hrun
      obtain ⟨hr, hs⟩ := pair_eq hrun
      subst hs
      constructor
      · exact ⟨[Ev.jp2Check (pjoin out cfg.lossless_jp2_filename)], by simp⟩
      · intro hcon
        exact absurd hc hcon
  · rw [if_neg hc] at hrun
    simp only [andThen_error] at hrun
    obtain ⟨hr, hs⟩ := pair_eq hrun
    subst hs
    constructor
    · exact ⟨[], by simp⟩
    · intro _
      exact hr.symm

/-- A state holding a scratch TIFF and a source image whose pixel checksums
will differ after the tagging conversion, for the C1 witness. -/
def stChk : PSt :=
  { fs := [("scr/u.tiff", [9, 9]), ("src.tiff", [7])],
    scratchLive := false, xmpHandles := 0, events := [] }

/-- Witness for C1 at a concrete run with differing checksums: the run fails
with a ValidationError. -/
theorem claim1_check_lossless_w :
    (generate_jp2_with_check_lossless defaultTransform extOK "src.tiff" "scr/u.tiff"
      "out" true stChk).1 = Except.error Err.validation :=
  (claim1_check_lossless defaultTransform extOK "src.tiff" "scr/u.tiff" "out" stChk
    (generate_jp2_with_check_lossless defaultTransform extOK "src.tiff" "scr/u.tiff"
      "out" true stChk).1
    (generate_jp2_with_check_lossless defaultTransform extOK "src.tiff" "scr/u.tiff"
      "out" true stChk).2
    [9, 9] [5, 9, 9] [7] rfl rfl rfl rfl (by decide)).2 (by decide)

theorem iv_resolved {l : List Ev} (hl : immediatelyValidated l = true) :
    ivRun none l = some none := by
  unfold immediatelyValidated at hl
  exact eq_of_beq hl

theorem iv_append_lossless (l : List Ev) (s p : String)
    (hl : immediatelyValidated l = true) :
    immediatelyValidated (l ++ [Ev.lossless s p, Ev.jp2Check p]) = true := by
  unfold immediatelyValidated
  rw [ivRun_append, iv_resolved hl]
  simp [ivRun, ivStep]

theorem iv_append_lossy (l : List Ev) (s p : String)
    (hl : immediatelyValidated l = true) :
    immediatelyValidated (l ++ [Ev.lossy s p, Ev.jp2Check p]) = true := by
  unfold immediatelyValidated
  rw [ivRun_append, iv_resolved hl]
  simp [ivRun, ivStep]

theorem iv_append_neutral (l : List Ev) (e : Ev) (he : ivStep none e = some none)
    (hl : immediatelyValidated l = true) :
    immediatelyValidated (l ++ [e]) = true := by
  unfold immediatelyValidated
  rw [ivRun_append, iv_resolved hl]
  simp [ivRun, he]

/-- C4: in every run of `generate_jp2_derivatives_from_tiff`, each produced
JPEG2000 (the lossless and the lossy one) is structurally validated
immediately after its generation (automaton invariant on the trace), and a
structurally invalid lossless or lossy codestream makes the run return a
ValidationError. -/
theorem claim4_jp2_validation (cfg : Transform) (ext : Ext) (scr out : String) (st : PSt)
    (r : Except Err (List String)) (st' : PSt)
    (hrun : generate_jp2_derivatives_from_tiff cfg ext scr out st = (r, st'))
    (hiv : immediatelyValidated st.events = true) :
    immediatelyValidated st'.events = true ∧
    (∀ d ld, fsGet st.fs scr = some d → ext.convert_to_jpeg2000 d true = Except.ok ld →
      ext.jp2_valid ld = false → r = Except.error Err.validation) ∧
    (∀ d ld pd lyd, fsGet st.fs scr = some d →
      ext.convert_to_jpeg2000 d true = Except.ok ld → ext.jp2_valid ld = true →
      scr ≠ pjoin out cfg.lossless_jp2_filename →
      ext.convert_tiff_colour_profile d cfg.icc_profile = Except.ok pd →
      ext.convert_colour_to_jpeg2000 pd false = Except.ok lyd →
      ext.jp2_valid lyd = false → r = Except.error Err.validation) := by
  refine ⟨?_, ?_, ?_⟩
  · rw [show st' = (generate_jp2_derivatives_from_tiff cfg ext scr out st).2 by rw [hrun]]
    unfold generate_jp2_derivatives_from_tiff
    refine andThen_pred (fun s => immediatelyValidated s.events = true) _ _ ?_ ?_
    · rw [readFile_snd]
      exact hiv
    · intro d st1 h1
      refine andThen_pred (fun s => immediatelyValidated s.events = true) _ _ h1 ?_
      intro ld st2 h2
      refine andThen_pred (fun s => immediatelyValidated s.events = true) _ _ ?_ ?_
      · rw [validate_jp2_snd]
        simp only [recordEv_events, writeFile_events, List.append_assoc, List.cons_append,
          List.nil_append]
        exact iv_append_lossless _ _ _ h2
      · intro u st3 h3
        refine andThen_pred (fun s => immediatelyValidated s.events = true) _ _ ?_ ?_
        · rw [readFile_snd]
          exact h3
        · intro d1 st4 h4
          refine andThen_pred (fun s => immediatelyValidated s.events = true) _ _ h4 ?_
          intro pd st5 h5
          refine andThen_pred (fun s => immediatelyValidated s.events = true) _ _ ?_ ?_
          · rw [readFile_snd]
            simp only [recordEv_events, writeFile_events]
            exact iv_append_neutral _ _ rfl h5
          · intro d2 st6 h6
            refine andThen_pred (fun s => immediatelyValidated s.events = true) _ _ h6 ?_
            intro lyd st7 h7
            refine andThen_pred (fun s => immediatelyValidated s.events = true) _ _ ?_ ?_
            · rw [validate_jp2_snd]
              simp only [recordEv_events, writeFile_events, List.append_assoc,
                List.cons_append, List.nil_append]
              exact iv_append_lossy _ _ _ h7
            · intro u2 st8 h8
              exact h8
  · intro d ld h1 h2 h3
    rw [gen_jp2_eq_invalid_ll h1 h2 h3] at hrun
    exact (pair_eq hrun).1.symm
  · intro d ld pd lyd h1 h2 h3 h4 h5 h6 h7
    rw [gen_jp2_eq_invalid_lossy h1 h2 h3 h4 h5 h6 h7] at hrun
    exact (pair_eq hrun).1.symm

/-- An external-collaborator instance whose codestream validator rejects
every file. -/
def extJp2Bad : Ext := { extOK with jp2_valid := fun _ => false }

/-- Witness for C4 at a concrete run with an invalid lossless codestream:
the run returns a ValidationError. -/
theorem claim4_jp2_validation_w :
    (generate_jp2_derivatives_from_tiff defaultTransform extJp2Bad "scr/u.tiff" "out"
      stChk).1 = Except.error Err.validation :=
  (claim4_jp2_validation defaultTransform extJp2Bad "scr/u.tiff" "out" stChk
    (generate_jp2_derivatives_from_tiff defaultTransform extJp2Bad "scr/u.tiff" "out" stChk).1
    (generate_jp2_derivatives_from_tiff defaultTransform extJp2Bad "scr/u.tiff" "out" stChk).2
    rfl (by decide)).2.1 [9, 9] [5, 9, 9] rfl rfl rfl

/-- C6: in every run of `generate_jp2_derivatives_from_tiff` (started with an
empty trace), the ICC profile is applied only after the lossless JP2 has been
generated and structurally validated - whenever the trace contains a profile
step it begins with generation, validation, then the profile step - and in a
successful run the lossless JP2 derives from the unprofiled scratch bytes
while the lossy JP2 derives from the profiled bytes. -/
theorem claim6_profile_after_lossless (cfg : Transform) (ext : Ext) (scr out : String)
    (st : PSt) (r : Except Err (List String)) (st' : PSt)
    (hrun : generate_jp2_derivatives_from_tiff cfg ext scr out st = (r, st'))
    (hev : st.events = [])
    (hscrll : scr ≠ pjoin out cfg.lossless_jp2_filename)
    (hnames : cfg.lossless_jp2_filename ≠ cfg.lossy_jp2_filename) :
    (∀ p, Ev.profile p ∈ st'.events →
      ∃ rest, st'.events =
        Ev.lossless scr (pjoin out cfg.lossless_jp2_filename) ::
        Ev.jp2Check (pjoin out cfg.lossless_jp2_filename) ::
        Ev.profile scr :: rest) ∧
    (∀ fl, r = Except.ok fl →
      ∃ d ld pd lyd,
        fsGet st.fs scr = some d ∧
        ext.convert_to_jpeg2000 d true = Except.ok ld ∧
        ext.jp2_valid ld = true ∧
        fsGet st'.fs (pjoin out cfg.lossless_jp2_filename) = some ld ∧
        ext.convert_tiff_colour_profile d cfg.icc_profile = Except.ok pd ∧
        ext.convert_colour_to_jpeg2000 pd false = Except.ok lyd ∧
        fsGet st'.fs (pjoin out cfg.lossy_jp2_filename) = some lyd) := by
  have hllly : pjoin out cfg.lossless_jp2_filename ≠ pjoin out cfg.lossy_jp2_filename :=
    pjoin_ne_right out hnames
  cases hd : fsGet st.fs scr with
  | none =>
    rw [gen_jp2_eq_noread hd] at hrun
    obtain ⟨hr, hs⟩ := pair_eq hrun
    subst hs
    constructor
    · intro p hp
      rw [hev] at hp
      cases hp
    · intro fl hfl
      rw [← hr] at hfl
      cases hfl
  | some d =>
    cases hc : ext.convert_to_jpeg2000 d true with
    | error e =>
      rw [gen_jp2_eq_llconvfail hd hc] at hrun
      obtain ⟨hr, hs⟩ := pair_eq hrun
      subst hs
      constructor
      · intro p hp
        rw [hev] at hp
        cases hp
      · intro fl hfl
        rw [← hr] at hfl
        cases hfl
    | ok ld =>
      cases hv : ext.jp2_valid ld with
      | false =>
        rw [gen_jp2_eq_invalid_ll hd hc hv] at hrun
        obtain ⟨hr, hs⟩ := pair_eq hrun
        subst hs
        constructor
        · intro p hp
          simp [hev] at hp
        · intro fl hfl
          rw [← hr] at hfl
          cases hfl
      | true =>
        cases hp : ext.convert_tiff_colour_profile d cfg.icc_profile with
        | error e =>
          rw [gen_jp2_eq_profilefail hd hc hv hscrll hp] at hrun
          obtain ⟨hr, hs⟩ := pair_eq hrun
          subst hs
          constructor
          · intro p hp2
            simp [hev] at hp2
          · intro fl hfl
            rw [← hr] at hfl
            cases hfl
        | ok pd =>
          cases hy : ext.convert_colour_to_jpeg2000 pd false with
          | error e =>
            rw [gen_jp2_eq_lossyfail hd hc hv hscrll hp hy] at hrun
            obtain ⟨hr, hs⟩ := pair_eq hrun
            subst hs
            constructor
            · intro p hp2
              refine ⟨[], ?_⟩
              simp [hev]
            · intro fl hfl
              rw [← hr] at hfl
              cases hfl
          | ok lyd =>
            cases hvy : ext.jp2_valid lyd with
            | false =>
              rw [gen_jp2_eq_invalid_lossy hd hc hv hscrll hp hy hvy] at hrun
              obtain ⟨hr, hs⟩ := pair_eq hrun
              subst hs
              constructor
              · intro p hp2
                refine ⟨[Ev.lossy scr (pjoin out cfg.lossy_jp2_filename),
                  Ev.jp2Check (pjoin out cfg.lossy_jp2_filename)], ?_⟩
                simp [hev]
              · intro fl hfl
                rw [← hr] at hfl
                cases hfl
            | true =>
              rw [gen_jp2_eq_ok hd hc hv hscrll hp hy hvy] at hrun
              obtain ⟨hr, hs⟩ := pair_eq hrun
              subst hs
              constructor
              · intro p hp2
                refine ⟨[Ev.lossy scr (pjoin out cfg.lossy_jp2_filename),
                  Ev.jp2Check (pjoin out cfg.lossy_jp2_filename)], ?_⟩
                simp [hev]
              · intro fl hfl
                refine ⟨d, ld, pd, lyd, rfl, hc, hv, ?_, hp, hy, ?_⟩
                · simp only [recordEv_fs, writeFile_fs]
                  rw [fsGet_fsSet_ne _ _ hllly, fsGet_fsSet_ne _ _ hscrll.symm,
                    fsGet_fsSet_self]
                · simp only [recordEv_fs, writeFile_fs]
                  rw [fsGet_fsSet_self]

/-- Witness for C6 at a concrete successful run. -/
theorem claim6_profile_after_lossless_w :
    fsGet (generate_jp2_derivatives_from_tiff defaultTransform extOK "scr/u.tiff" "out"
      stChk).2.fs (pjoin "out" defaultTransform.lossless_jp2_filename) = some [5, 9, 9] := by
  have h := (claim6_profile_after_lossless defaultTransform extOK "scr/u.tiff" "out" stChk
    (generate_jp2_derivatives_from_tiff defaultTransform extOK "scr/u.tiff" "out" stChk).1
    (generate_jp2_derivatives_from_tiff defaultTransform extOK "scr/u.tiff" "out" stChk).2
    rfl rfl (by decide) (by decide)).2
    ["out/full_lossless.jp2", "out/full_lossy.jp2"] (by decide)
  obtain ⟨d, ld, pd, lyd, h1, h2, h3, h4, h5, h6, h7⟩ := h
  have hld : ld = [5, 9, 9] := by
    have hd : d = [9, 9] := by
      have := h1
      simp [stChk, fsGet, List.find?] at this
      exact this.symm
    rw [hd] at h2
    have := h2
    simp [extOK] at this
    exact this.symm
  rw [← hld]
  exact h4

theorem cleanup_mem_rmtree (ext : Ext) (st : PSt) (dir : String) :
    Ev.cleanup ∈ (rmtree ext st dir).events := by
  unfold rmtree
  split <;> simp

theorem rmtree_scratchLive {ext : Ext} (st : PSt) (dir : String)
    (hok : ext.rmtree_ok = true) : (rmtree ext st dir).scratchLive = false := by
  simp [rmtree, hok]

theorem dirGone_rmtree {ext : Ext} (st : PSt) (dir : String)
    (hok : ext.rmtree_ok = true) : dirGone dir (rmtree ext st dir).fs = true := by
  simp only [rmtree, hok, if_true, dirGone]
  rw [List.all_eq_true]
  intro e he
  exact (List.mem_filter.mp he).2

/-- C3: both entry points always run the scratch-directory removal before
returning - on success and on every failure path (the cleanup step is in the
trace and, when the delete succeeds, the scratch directory and all files in
it are gone) - and the outcome of the best-effort delete never changes or
masks the run's own result. -/
theorem claim3_scratch_cleanup (cfg : Transform) (ext : Ext)
    (tf jf out scratch uuid : String) (it sx rp strip b : Bool) (st : PSt)
    (hok : ext.rmtree_ok = true) :
    (Ev.cleanup ∈
        (generate_derivatives_from_tiff cfg ext tf out scratch uuid it sx rp st).2.events ∧
     Ev.cleanup ∈
        (generate_derivatives_from_jpg cfg ext jf out scratch uuid strip sx st).2.events) ∧
    ((generate_derivatives_from_tiff cfg ext tf out scratch uuid it sx rp st).2.scratchLive
        = false ∧
     (generate_derivatives_from_jpg cfg ext jf out scratch uuid strip sx st).2.scratchLive
        = false) ∧
    (dirGone scratch
        (generate_derivatives_from_tiff cfg ext tf out scratch uuid it sx rp st).2.fs = true ∧
     dirGone scratch
        (generate_derivatives_from_jpg cfg ext jf out scratch uuid strip sx st).2.fs = true) ∧
    ((generate_derivatives_from_tiff cfg { ext with rmtree_ok := b }
        tf out scratch uuid it sx rp st).1 =
      (generate_derivatives_from_tiff cfg ext tf out scratch uuid it sx rp st).1 ∧
     (generate_derivatives_from_jpg cfg { ext with rmtree_ok := b }
        jf out scratch uuid strip sx st).1 =
      (generate_derivatives_from_jpg cfg ext jf out scratch uuid strip sx st).1 ∧
     Ev.cleanup ∈ (generate_derivatives_from_tiff cfg { ext with rmtree_ok := b }
        tf out scratch uuid it sx rp st).2.events ∧
     Ev.cleanup ∈ (generate_derivatives_from_jpg cfg { ext with rmtree_ok := b }
        jf out scratch uuid strip sx st).2.events) := by
  refine ⟨⟨?_, ?_⟩, ⟨?_, ?_⟩, ⟨?_, ?_⟩, ?_, ?_, ?_, ?_⟩
  · exact cleanup_mem_rmtree _ _ _
  · exact cleanup_mem_rmtree _ _ _
  · exact rmtree_scratchLive _ _ hok
  · exact rmtree_scratchLive _ _ hok
  · exact dirGone_rmtree _ _ hok
  · exact dirGone_rmtree _ _ hok
  · rfl
  · rfl
  · exact cleanup_mem_rmtree _ _ _
  · exact cleanup_mem_rmtree _ _ _

/-- Witness for C3 at a concrete run: the scratch directory is gone. -/
theorem claim3_scratch_cleanup_w :
    dirGone "scr" (generate_derivatives_from_tiff defaultTransform extOK "in.tiff" "out"
      "scr" "u" true false false (stInit "in.tiff" [9, 9])).2.fs = true :=
  (claim3_scratch_cleanup defaultTransform extOK "in.tiff" "pic.jpg" "out" "scr" "u"
    true false false false false (stInit "in.tiff" [9, 9]) rfl).2.2.1.1

theorem rmtree_fs_ne {ext : Ext} {st : PSt} {dir q : String} (h : dirHas dir q = false) :
    fsGet (rmtree ext st dir).fs q = fsGet st.fs q := by
  unfold rmtree
  split
  · exact fsGet_rmtree_filter h
  · rfl

theorem rmtree_destructive {ext : Ext} {st : PSt} {dir s : String}
    (h0 : destructiveInScratch s st.events = true) :
    destructiveInScratch s (rmtree ext st dir).events = true := by
  unfold rmtree
  split <;>
    · simp only []
      rw [destructive_append, h0]
      simp [destructiveInScratch]

/-- Frame: the try-block body of the TIFF entry point writes only inside the
output directory and inside the scratch directory. -/
theorem from_tiff_body_fs_ne {cfg : Transform} {ext : Ext}
    {tf out scratch uuid q : String} {it sx rp : Bool} {st : PSt}
    (hout : dirHas out q = false) (hscr : dirHas scratch q = false) :
    fsGet (from_tiff_body cfg ext tf out scratch uuid it sx rp st).2.fs q = fsGet st.fs q := by
  have hjp : q ≠ pjoin out cfg.jpg_filename := (ne_of_dirHas (dirHas_pjoin _ _) hout).symm
  have hxmp : q ≠ pjoin out cfg.xmp_filename := (ne_of_dirHas (dirHas_pjoin _ _) hout).symm
  have htp : q ≠ pjoin out cfg.tiff_filename := (ne_of_dirHas (dirHas_pjoin _ _) hout).symm
  have hll : q ≠ pjoin out cfg.lossless_jp2_filename :=
    (ne_of_dirHas (dirHas_pjoin _ _) hout).symm
  have hly : q ≠ pjoin out cfg.lossy_jp2_filename :=
    (ne_of_dirHas (dirHas_pjoin _ _) hout).symm
  have hscrp : q ≠ pjoin scratch (uuid ++ ".tiff") :=
    (ne_of_dirHas (dirHas_pjoin _ _) hscr).symm
  unfold from_tiff_body
  refine andThen_pred (fun s => fsGet s.fs q = fsGet st.fs q) _ _ ?_ ?_
  · rw [readFile_snd]
  · intro src st1 h1
    refine andThen_pred (fun s => fsGet s.fs q = fsGet st.fs q) _ _ h1 ?_
    intro jd st2 h2
    have hJP : fsGet (recordEv (writeFile st2 (pjoin out cfg.jpg_filename) jd)
        (Ev.jpgConv tf (pjoin out cfg.jpg_filename))).fs q = fsGet st.fs q := by
      simp only [recordEv_fs, writeFile_fs]
      rw [fsGet_fsSet_ne _ _ hjp]
      exact h2
    refine andThen_pred (fun s => fsGet s.fs q = fsGet st.fs q) _ _ ?_ ?_
    · cases sx with
      | true =>
        simp only [if_true]
        refine andThen_pred (fun s => fsGet s.fs q = fsGet st.fs q) _ _ ?_ ?_
        · exact (extract_xmp_fs_ne hxmp).trans hJP
        · intro u stx hx
          exact hx
      | false =>
        simp only [Bool.false_eq_true, if_false]
        exact hJP
    · intro g1 st3 h3
      refine andThen_pred (fun s => fsGet s.fs q = fsGet st.fs q) _ _ ?_ ?_
      · cases it with
        | true =>
          simp only [if_true]
          refine andThen_pred (fun s => fsGet s.fs q = fsGet st.fs q) _ _ ?_ ?_
          · rw [readFile_snd]
            exact h3
          · intro d stx hx
            simp only [recordEv_fs, writeFile_fs]
            rw [fsGet_fsSet_ne _ _ htp]
            exact hx
        | false =>
          simp only [Bool.false_eq_true, if_false]
          exact h3
      · intro g2 st4 h4
        refine andThen_pred (fun s => fsGet s.fs q = fsGet st.fs q) _ _ ?_ ?_
        · rw [readFile_snd]
          exact h4
        · intro d st5 h5
          have hSC : fsGet (recordEv (writeFile st5 (pjoin scratch (uuid ++ ".tiff")) d)
              (Ev.fileCopy tf (pjoin scratch (uuid ++ ".tiff")))).fs q = fsGet st.fs q := by
            simp only [recordEv_fs, writeFile_fs]
            rw [fsGet_fsSet_ne _ _ hscrp]
            exact h5
          refine andThen_pred (fun s => fsGet s.fs q = fsGet st.fs q) _ _ ?_ ?_
          · cases rp with
            | true =>
              simp only [if_true]
              refine andThen_pred (fun s => fsGet s.fs q = fsGet st.fs q) _ _ ?_ ?_
              · rw [readFile_snd]
                exact hSC
              · intro rd stx hx
                refine andThen_pred (fun s => fsGet s.fs q = fsGet st.fs q) _ _ hx ?_
                intro rp2 sty hy
                simp only [recordEv_fs, writeFile_fs]
                rw [fsGet_fsSet_ne _ _ hscrp]
                exact hy
            | false =>
              simp only [Bool.false_eq_true, if_false]
              exact hSC
          · intro u st6 h6
            refine andThen_pred (fun s => fsGet s.fs q = fsGet st.fs q) _ _ ?_ ?_
            · exact (gen_jp2_fs_ne hll hly hscrp).trans h6
            · intro g3 st7 h7
              exact h7

theorem destructive_snoc_neutral {s : String} {l : List Ev} (e : Ev)
    (he : (match e with
           | Ev.repage p => dirHas s p
           | Ev.profile p => dirHas s p
           | _ => true) = true)
    (hl : destructiveInScratch s l = true) :
    destructiveInScratch s (l ++ [e]) = true := by
  rw [destructive_append, hl]
  simp [destructiveInScratch, he]

/-- Frame: the try-block body of the TIFF entry point applies destructive
in-place steps only to the scratch copy. -/
theorem from_tiff_body_destructive {cfg : Transform} {ext : Ext}
    {tf out scratch uuid : String} {it sx rp : Bool} {st : PSt}
    (h0 : destructiveInScratch scratch st.events = true) :
    destructiveInScratch scratch
      (from_tiff_body cfg ext tf out scratch uuid it sx rp st).2.events = true := by
  have hscrp : dirHas scratch (pjoin scratch (uuid ++ ".tiff")) = true := dirHas_pjoin _ _
  unfold from_tiff_body
  refine andThen_pred (fun s => destructiveInScratch scratch s.events = true) _ _ ?_ ?_
  · rw [readFile_snd]
    exact h0
  · intro src st1 h1
    refine andThen_pred (fun s => destructiveInScratch scratch s.events = true) _ _ h1 ?_
    intro jd st2 h2
    have hJP : destructiveInScratch scratch
        (recordEv (writeFile st2 (pjoin out cfg.jpg_filename) jd)
          (Ev.jpgConv tf (pjoin out cfg.jpg_filename))).events = true := by
      simp only [recordEv_events, writeFile_events]
      exact destructive_snoc_neutral _ rfl h2
    refine andThen_pred (fun s => destructiveInScratch scratch s.events = true) _ _ ?_ ?_
    · cases sx with
      | true =>
        simp only [if_true]
        refine andThen_pred (fun s => destructiveInScratch scratch s.events = true) _ _ ?_ ?_
        · exact extract_xmp_destructive hJP
        · intro u stx hx
          exact hx
      | false =>
        simp only [Bool.false_eq_true, if_false]
        exact hJP
    · intro g1 st3 h3
      refine andThen_pred (fun s => destructiveInScratch scratch s.events = true) _ _ ?_ ?_
      · cases it with
        | true =>
          simp only [if_true]
          refine andThen_pred (fun s => destructiveInScratch scratch s.events = true) _ _ ?_ ?_
          · rw [readFile_snd]
            exact h3
          · intro d stx hx
            simp only [recordEv_events, writeFile_events]
            exact destructive_snoc_neutral _ rfl hx
        | false =>
          simp only [Bool.false_eq_true, if_false]
          exact h3
      · intro g2 st4 h4
        refine andThen_pred (fun s => destructiveInScratch scratch s.events = true) _ _ ?_ ?_
        · rw [readFile_snd]
          exact h4
        · intro d st5 h5
          have hSC : destructiveInScratch scratch
              (recordEv (writeFile st5 (pjoin scratch (uuid ++ ".tiff")) d)
                (Ev.fileCopy tf (pjoin scratch (uuid ++ ".tiff")))).events = true := by
            simp only [recordEv_events, writeFile_events]
            exact destructive_snoc_neutral _ rfl h5
          refine andThen_pred (fun s => destructiveInScratch scratch s.events = true) _ _ ?_ ?_
          · cases rp with
            | true =>
              simp only [if_true]
              refine andThen_pred
                (fun s => destructiveInScratch scratch s.events = true) _ _ ?_ ?_
              · rw [readFile_snd]
                exact hSC
              · intro rd stx hx
                refine andThen_pred
                  (fun s => destructiveInScratch scratch s.events = true) _ _ hx ?_
                intro rp2 sty hy
                simp only [recordEv_events, writeFile_events]
                exact destructive_snoc_neutral _ hscrp hy
            | false =>
              simp only [Bool.false_eq_true, if_false]
              exact hSC
          · intro u st6 h6
            refine andThen_pred
              (fun s => destructiveInScratch scratch s.events = true) _ _ ?_ ?_
            · exact gen_jp2_destructive hscrp h6
            · intro g3 st7 h7
              exact h7

/-- Frame: the try-block body of the JPEG entry point writes only inside the
output directory and inside the scratch directory. -/
theorem from_jpg_body_fs_ne {cfg : Transform} {ext : Ext}
    {jf out scratch uuid q : String} {strip sx : Bool} {st : PSt}
    (hout : dirHas out q = false) (hscr : dirHas scratch q = false) :
    fsGet (from_jpg_body cfg ext jf out scratch uuid strip sx st).2.fs q = fsGet st.fs q := by
  have hjp : q ≠ pjoin out cfg.jpg_filename := (ne_of_dirHas (dirHas_pjoin _ _) hout).symm
  have hxmp : q ≠ pjoin out cfg.xmp_filename := (ne_of_dirHas (dirHas_pjoin _ _) hout).symm
  have hll : q ≠ pjoin out cfg.lossless_jp2_filename :=
    (ne_of_dirHas (dirHas_pjoin _ _) hout).symm
  have hly : q ≠ pjoin out cfg.lossy_jp2_filename :=
    (ne_of_dirHas (dirHas_pjoin _ _) hout).symm
  have hscrp : q ≠ pjoin scratch (uuid ++ ".tif") :=
    (ne_of_dirHas (dirHas_pjoin _ _) hscr).symm
  unfold from_jpg_body
  refine andThen_pred (fun s => fsGet s.fs q = fsGet st.fs q) _ _ ?_ ?_
  · rw [readFile_snd]
  · intro src st1 h1
    have hJP : fsGet (recordEv (writeFile st1 (pjoin out cfg.jpg_filename) src)
        (Ev.fileCopy jf (pjoin out cfg.jpg_filename))).fs q = fsGet st.fs q := by
      simp only [recordEv_fs, writeFile_fs]
      rw [fsGet_fsSet_ne _ _ hjp]
      exact h1
    refine andThen_pred (fun s => fsGet s.fs q = fsGet st.fs q) _ _ ?_ ?_
    · cases sx with
      | true =>
        simp only [if_true]
        refine andThen_pred (fun s => fsGet s.fs q = fsGet st.fs q) _ _ ?_ ?_
        · exact (extract_xmp_fs_ne hxmp).trans hJP
        · intro u stx hx
          exact hx
      | false =>
        simp only [Bool.false_eq_true, if_false]
        exact hJP
    · intro g1 st2 h2
      refine andThen_pred (fun s => fsGet s.fs q = fsGet st.fs q) _ _ ?_ ?_
      · rw [readFile_snd]
        exact h2
      · intro jd st3 h3
        refine andThen_pred (fun s => fsGet s.fs q = fsGet st.fs q) _ _ h3 ?_
        intro td st4 h4
        have hSC : fsGet (recordEv (writeFile st4 (pjoin scratch (uuid ++ ".tif")) td)
            (Ev.tiffConv (pjoin out cfg.jpg_filename)
              (pjoin scratch (uuid ++ ".tif")))).fs q = fsGet st.fs q := by
          simp only [recordEv_fs, writeFile_fs]
          rw [fsGet_fsSet_ne _ _ hscrp]
          exact h4
        refine andThen_pred (fun s => fsGet s.fs q = fsGet st.fs q) _ _ ?_ ?_
        · exact (gen_jp2_fs_ne hll hly hscrp).trans hSC
        · intro g3 st5 h5
          exact h5

/-- Frame: the try-block body of the JPEG entry point applies destructive
in-place steps only to the scratch copy. -/
theorem from_jpg_body_destructive {cfg : Transform} {ext : Ext}
    {jf out scratch uuid : String} {strip sx : Bool} {st : PSt}
    (h0 : destructiveInScratch scratch st.events = true) :
    destructiveInScratch scratch
      (from_jpg_body cfg ext jf out scratch uuid strip sx st).2.events = true := by
  have hscrp : dirHas scratch (pjoin scratch (uuid ++ ".tif")) = true := dirHas_pjoin _ _
  unfold from_jpg_body
  refine andThen_pred (fun s => destructiveInScratch scratch s.events = true) _ _ ?_ ?_
  · rw [readFile_snd]
    exact h0
  · intro src st1 h1
    have hJP : destructiveInScratch scratch
        (recordEv (writeFile st1 (pjoin out cfg.jpg_filename) src)
          (Ev.fileCopy jf (pjoin out cfg.jpg_filename))).events = true := by
      simp only [recordEv_events, writeFile_events]
      exact destructive_snoc_neutral _ rfl h1
    refine andThen_pred (fun s => destructiveInScratch scratch s.events = true) _ _ ?_ ?_
    · cases sx with
      | true =>
        simp only [if_true]
        refine andThen_pred (fun s => destructiveInScratch scratch s.events = true) _ _ ?_ ?_
        · exact extract_xmp_destructive hJP
        · intro u stx hx
          exact hx
      | false =>
        simp only [Bool.false_eq_true, if_false]
        exact hJP
    · intro g1 st2 h2
      refine andThen_pred (fun s => destructiveInScratch scratch s.events = true) _ _ ?_ ?_
      · rw [readFile_snd]
        exact h2
      · intro jd st3 h3
        refine andThen_pred (fun s => destructiveInScratch scratch s.events = true) _ _ h3 ?_
        intro td st4 h4
        have hSC : destructiveInScratch scratch
            (recordEv (writeFile st4 (pjoin scratch (uuid ++ ".tif")) td)
              (Ev.tiffConv (pjoin out cfg.jpg_filename)
                (pjoin scratch (uuid ++ ".tif")))).events = true := by
          simp only [recordEv_events, writeFile_events]
          exact destructive_snoc_neutral _ rfl h4
        refine andThen_pred (fun s => destructiveInScratch scratch s.events = true) _ _ ?_ ?_
        · exact gen_jp2_destructive hscrp hSC
        · intro g3 st5 h5
          exact h5

/-- C5: in every run of either entry point, the caller's source file is never
mutated - its bytes are the same after the run, whatever the oracle outcomes
and options - and every in-place destructive step in the trace (offset repage,
ICC-profile application) touched only a path inside the scratch directory. -/
theorem claim5_source_preserved (cfg : Transform) (ext : Ext)
    (tf jf out scratch uuid : String) (it sx rp strip : Bool) (st : PSt)
    (htf1 : dirHas out tf = false) (htf2 : dirHas scratch tf = false)
    (hjf1 : dirHas out jf = false) (hjf2 : dirHas scratch jf = false)
    (hdes : destructiveInScratch scratch st.events = true) :
    fsGet (generate_derivatives_from_tiff cfg ext tf out scratch uuid it sx rp st).2.fs tf
      = fsGet st.fs tf ∧
    fsGet (generate_derivatives_from_jpg cfg ext jf out scratch uuid strip sx st).2.fs jf
      = fsGet st.fs jf ∧
    destructiveInScratch scratch
      (generate_derivatives_from_tiff cfg ext tf out scratch uuid it sx rp st).2.events
      = true ∧
    destructiveInScratch scratch
      (generate_derivatives_from_jpg cfg ext jf out scratch uuid strip sx st).2.events
      = true := by
  refine ⟨?_, ?_, ?_, ?_⟩
  · exact (rmtree_fs_ne htf2).trans ((from_tiff_body_fs_ne htf1 htf2).trans rfl)
  · exact (rmtree_fs_ne hjf2).trans ((from_jpg_body_fs_ne hjf1 hjf2).trans rfl)
  · exact rmtree_destructive (from_tiff_body_destructive hdes)
  · exact rmtree_destructive (from_jpg_body_destructive hdes)

/-- Witness for C5 at a concrete run: the source TIFF's bytes are unchanged. -/
theorem claim5_source_preserved_w :
    fsGet (generate_derivatives_from_tiff defaultTransform extOK "in.tiff" "out" "scr" "u"
      true false true (stInit "in.tiff" [9, 9])).2.fs "in.tiff"
      = fsGet (stInit "in.tiff" [9, 9]).fs "in.tiff" :=
  (claim5_source_preserved defaultTransform extOK "in.tiff" "pic.jpg" "out" "scr" "u"
    true false true false (stInit "in.tiff" [9, 9])
    (by decide) (by decide) (by decide) (by decide) (by decide)).1

/-- C2 (code-bug evidence): `generate_derivatives_from_tiff` performs no
ICC-profile suitability check at all - nothing in transform.py ever inspects
the source's colour profile - so on a colour TIFF without an ICC profile,
with default options, the run succeeds, creates the jpg derivative (and three
further files) in the output directory, and raises no ValidationError, where
the spec and the repository's own tests demand a ValidationError before any
output file is created. -/
theorem claim2_no_profile_run :
    (generate_derivatives_from_tiff defaultTransform extOK "in/noprofile.tiff" "out" "scr" "u"
      true false false (stInit "in/noprofile.tiff" [9, 9])).1 =
      Except.ok ["out/full.jpg", "out/full.tiff", "out/full_lossless.jp2",
        "out/full_lossy.jp2"] ∧
    fsGet (generate_derivatives_from_tiff defaultTransform extOK "in/noprofile.tiff" "out"
      "scr" "u" true false false (stInit "in/noprofile.tiff" [9, 9])).2.fs "out/full.jpg"
      = some [1, 9, 9] ∧
    ¬ (generate_derivatives_from_tiff defaultTransform extOK "in/noprofile.tiff" "out" "scr"
      "u" true false false (stInit "in/noprofile.tiff" [9, 9])).1
      = Except.error Err.validation := by
  decide

/-- C7 counterexample: on a standard JPEG source with `save_xmp` set and every
external step succeeding, `generate_derivatives_from_jpg` produces four files
in the output directory - jpg copy, xmp sidecar, lossless JP2 and lossy JP2 -
not the three the claim states. -/
theorem claim7_counterexample :
    (generate_derivatives_from_jpg defaultTransform extOK "pic.jpg" "out" "scr" "u"
      false true (stInit "pic.jpg" [9])).1 =
      Except.ok ["out/full.jpg", "out/xmp.xml", "out/full_lossless.jp2",
        "out/full_lossy.jp2"] ∧
    (filesIn "out" (generate_derivatives_from_jpg defaultTransform extOK "pic.jpg" "out"
      "scr" "u" false true (stInit "pic.jpg" [9])).2.fs).length = 4 ∧
    ¬ (filesIn "out" (generate_derivatives_from_jpg defaultTransform extOK "pic.jpg" "out"
      "scr" "u" false true (stInit "pic.jpg" [9])).2.fs).length = 3 := by
  decide

/-- C9 counterexample: when XMP extraction fails in a `save_xmp=true` run of
`generate_derivatives_from_tiff`, the exception propagates - the run returns
the metadata error instead of completing - and the remaining derivatives (the
JP2s) are never produced; only the jpg written before the XMP step exists, and
the scratch cleanup still runs. -/
theorem claim9_counterexample :
    (generate_derivatives_from_tiff defaultTransform extXmpFail "in.tiff" "out" "scr" "u"
      true true false (stInit "in.tiff" [9, 9])).1 = Except.error Err.metadata ∧
    fsGet (generate_derivatives_from_tiff defaultTransform extXmpFail "in.tiff" "out" "scr"
      "u" true true false (stInit "in.tiff" [9, 9])).2.fs "out/full_lossless.jp2" = none ∧
    fsGet (generate_derivatives_from_tiff defaultTransform extXmpFail "in.tiff" "out" "scr"
      "u" true true false (stInit "in.tiff" [9, 9])).2.fs "out/full.jpg" = some [1, 9, 9] ∧
    Ev.cleanup ∈ (generate_derivatives_from_tiff defaultTransform extXmpFail "in.tiff" "out"
      "scr" "u" true true false (stInit "in.tiff" [9, 9])).2.events := by
  decide

theorem outScrDisjoint : ∀ t : String, dirHas "out" t = true → dirHas "scr" t = false := by
  intro t h
  unfold dirHas at h ⊢
  rw [show ("out".data ++ ['/']) = ['o', 'u', 't', '/'] from rfl] at h
  rw [show ("scr".data ++ ['/']) = ['s', 'c', 'r', '/'] from rfl]
  cases ht : t.data with
  | nil =>
    rw [ht] at h
    cases h
  | cons c cs =>
    rw [ht] at h
    have h2 : (('o' == c) && isPref ['u', 't', '/'] cs) = true := h
    have hc : c = 'o' := (eq_of_beq ((Bool.and_eq_true _ _).mp h2).1).symm
    subst hc
    rfl

/-- C8: for every standard TIFF source (all conversions succeed and both JP2s
are structurally valid), `generate_derivatives_from_tiff` with
`include_tiff=true` and the remaining options at their defaults produces
exactly 4 files in the (initially empty) output directory - the jpg, the tiff
copy, the lossless JP2 and the lossy JP2 - and the produced tiff copy is
byte-identical to the source TIFF. -/
theorem claim8_tiff_four_files (ext : Ext) (tf out scratch uuid : String) (st : PSt)
    (r : Except Err (List String)) (st' : PSt) (sd jd ld pd lyd : Bytes)
    (hrun : generate_derivatives_from_tiff defaultTransform ext tf out scratch uuid
      true false false st = (r, st'))
    (hsd : fsGet st.fs tf = some sd)
    (hjpg : ext.convert_to_jpg sd = Except.ok jd)
    (hll : ext.convert_to_jpeg2000 sd true = Except.ok ld)
    (hvl : ext.jp2_valid ld = true)
    (hpf : ext.convert_tiff_colour_profile sd defaultTransform.icc_profile = Except.ok pd)
    (hly : ext.convert_colour_to_jpeg2000 pd false = Except.ok lyd)
    (hvy : ext.jp2_valid lyd = true)
    (hout0 : filesIn out st.fs = [])
    (hdisj : ∀ t, dirHas out t = true → dirHas scratch t = false)
    (hsrc_out : dirHas out tf = false) :
    r = Except.ok [pjoin out defaultTransform.jpg_filename,
      pjoin out defaultTransform.tiff_filename,
      pjoin out defaultTransform.lossless_jp2_filename,
      pjoin out defaultTransform.lossy_jp2_filename] ∧
    (filesIn out st'.fs).length = 4 ∧
    fsGet st'.fs (pjoin out defaultTransform.tiff_filename) = some sd := by
  have hne1 : tf ≠ pjoin out defaultTransform.jpg_filename :=
    (ne_of_dirHas (dirHas_pjoin _ _) hsrc_out).symm
  have hne2 : tf ≠ pjoin out defaultTransform.tiff_filename :=
    (ne_of_dirHas (dirHas_pjoin _ _) hsrc_out).symm
  have hscrp_out : dirHas out (pjoin scratch (uuid ++ ".tiff")) = false := by
    cases h : dirHas out (pjoin scratch (uuid ++ ".tiff")) with
    | false => rfl
    | true =>
      have := hdisj _ h
      rw [dirHas_pjoin] at this
      cases this
  have hne3 : pjoin scratch (uuid ++ ".tiff") ≠ pjoin out defaultTransform.lossless_jp2_filename :=
    (ne_of_dirHas (dirHas_pjoin _ _) hscrp_out).symm
  have hmid : fsGet (recordEv (writeFile (recordEv (writeFile (recordEv (writeFile
      ({ st with scratchLive := true } : PSt)
        (pjoin out defaultTransform.jpg_filename) jd)
      (Ev.jpgConv tf (pjoin out defaultTransform.jpg_filename)))
      (pjoin out defaultTransform.tiff_filename) sd)
      (Ev.fileCopy tf (pjoin out defaultTransform.tiff_filename)))
      (pjoin scratch (uuid ++ ".tiff")) sd)
      (Ev.fileCopy tf (pjoin scratch (uuid ++ ".tiff")))).fs
      (pjoin scratch (uuid ++ ".tiff")) = some sd := by
    simp
  simp only [generate_derivatives_from_tiff, from_tiff_body, readFile, liftE_eq, andThen_ok,
    andThen_error, Bool.false_eq_true, if_false, if_true, recordEv_fs, writeFile_fs,
    fsGet_fsSet_self, fsGet_fsSet_ne _ _ hne1, fsGet_fsSet_ne _ _ hne2,
    hsd, hjpg, gen_jp2_eq_ok hmid hll hvl hne3 hpf hly hvy] at hrun
  obtain ⟨hr, hs⟩ := pair_eq hrun
  -- key inequality and membership facts for the output paths
  have hb1 : (pjoin out defaultTransform.jpg_filename ==
      pjoin out defaultTransform.lossy_jp2_filename) = false := by
    rw [beq_eq_false_iff_ne]
    exact pjoin_ne_right out (by decide)
  have hb2 : (pjoin out defaultTransform.tiff_filename ==
      pjoin out defaultTransform.lossy_jp2_filename) = false := by
    rw [beq_eq_false_iff_ne]
    exact pjoin_ne_right out (by decide)
  have hb3 : (pjoin out defaultTransform.lossless_jp2_filename ==
      pjoin out defaultTransform.lossy_jp2_filename) = false := by
    rw [beq_eq_false_iff_ne]
    exact pjoin_ne_right out (by decide)
  have hb4 : (pjoin out defaultTransform.jpg_filename ==
      pjoin out defaultTransform.lossless_jp2_filename) = false := by
    rw [beq_eq_false_iff_ne]
    exact pjoin_ne_right out (by decide)
  have hb5 : (pjoin out defaultTransform.tiff_filename ==
      pjoin out defaultTransform.lossless_jp2_filename) = false := by
    rw [beq_eq_false_iff_ne]
    exact pjoin_ne_right out (by decide)
  have hb6 : (pjoin out defaultTransform.jpg_filename ==
      pjoin out defaultTransform.tiff_filename) = false := by
    rw [beq_eq_false_iff_ne]
    exact pjoin_ne_right out (by decide)
  have hfiles : filesIn out (rmtree ext (recordEv (recordEv (writeFile (recordEv (writeFile
      (recordEv (recordEv (writeFile (recordEv (writeFile (recordEv (writeFile (recordEv
      (writeFile ({ st with scratchLive := true } : PSt)
        (pjoin out defaultTransform.jpg_filename) jd)
      (Ev.jpgConv tf (pjoin out defaultTransform.jpg_filename)))
      (pjoin out defaultTransform.tiff_filename) sd)
      (Ev.fileCopy tf (pjoin out defaultTransform.tiff_filename)))
      (pjoin scratch (uuid ++ ".tiff")) sd)
      (Ev.fileCopy tf (pjoin scratch (uuid ++ ".tiff"))))
      (pjoin out defaultTransform.lossless_jp2_filename) ld)
      (Ev.lossless (pjoin scratch (uuid ++ ".tiff"))
        (pjoin out defaultTransform.lossless_jp2_filename)))
      (Ev.jp2Check (pjoin out defaultTransform.lossless_jp2_filename)))
      (pjoin scratch (uuid ++ ".tiff")) pd)
      (Ev.profile (pjoin scratch (uuid ++ ".tiff"))))
      (pjoin out defaultTransform.lossy_jp2_filename) lyd)
      (Ev.lossy (pjoin scratch (uuid ++ ".tiff"))
        (pjoin out defaultTransform.lossy_jp2_filename)))
      (Ev.jp2Check (pjoin out defaultTransform.lossy_jp2_filename))) scratch).fs =
      [(pjoin out defaultTransform.lossy_jp2_filename, lyd),
       (pjoin out defaultTransform.lossless_jp2_filename, ld),
       (pjoin out defaultTransform.tiff_filename, sd),
       (pjoin out defaultTransform.jpg_filename, jd)] := by
    have hstep : filesIn out (rmtree ext (recordEv (recordEv (writeFile (recordEv (writeFile
        (recordEv (recordEv (writeFile (recordEv (writeFile (recordEv (writeFile (recordEv
        (writeFile ({ st with scratchLive := true } : PSt)
          (pjoin out defaultTransform.jpg_filename) jd)
        (Ev.jpgConv tf (pjoin out defaultTransform.jpg_filename)))
        (pjoin out defaultTransform.tiff_filename) sd)
        (Ev.fileCopy tf (pjoin out defaultTransform.tiff_filename)))
        (pjoin scratch (uuid ++ ".tiff")) sd)
        (Ev.fileCopy tf (pjoin scratch (uuid ++ ".tiff"))))
        (pjoin out defaultTransform.lossless_jp2_filename) ld)
        (Ev.lossless (pjoin scratch (uuid ++ ".tiff"))
          (pjoin out defaultTransform.lossless_jp2_filename)))
        (Ev.jp2Check (pjoin out defaultTransform.lossless_jp2_filename)))
        (pjoin scratch (uuid ++ ".tiff")) pd)
        (Ev.profile (pjoin scratch (uuid ++ ".tiff"))))
        (pjoin out defaultTransform.lossy_jp2_filename) lyd)
        (Ev.lossy (pjoin scratch (uuid ++ ".tiff"))
          (pjoin out defaultTransform.lossy_jp2_filename)))
        (Ev.jp2Check (pjoin out defaultTransform.lossy_jp2_filename))) scratch).fs =
        filesIn out (fsSet (fsSet (fsSet (fsSet (fsSet (fsSet st.fs
          (pjoin out defaultTransform.jpg_filename) jd)
          (pjoin out defaultTransform.tiff_filename) sd)
          (pjoin scratch (uuid ++ ".tiff")) sd)
          (pjoin out defaultTransform.lossless_jp2_filename) ld)
          (pjoin scratch (uuid ++ ".tiff")) pd)
          (pjoin out defaultTransform.lossy_jp2_filename) lyd) := by
      unfold rmtree
      split
      · simp only [recordEv_fs, writeFile_fs]
        exact filesIn_rmtree_filter _ hdisj
      · simp only [recordEv_fs, writeFile_fs]
    rw [hstep]
    rw [filesIn_fsSet_in _ _ (dirHas_pjoin _ _),
        filesIn_fsSet_out _ _ hscrp_out,
        filesIn_fsSet_in _ _ (dirHas_pjoin _ _),
        filesIn_fsSet_out _ _ hscrp_out,
        filesIn_fsSet_in _ _ (dirHas_pjoin _ _),
        filesIn_fsSet_in _ _ (dirHas_pjoin _ _),
        hout0]
    simp [List.filter_cons, hb1, hb2, hb3, hb4, hb5, hb6]
  subst hs
  refine ⟨?_, ?_, ?_⟩
  · rw [← hr]
    rfl
  · rw [hfiles]
    rfl
  · have htp_scr : dirHas scratch (pjoin out defaultTransform.tiff_filename) = false :=
      hdisj _ (dirHas_pjoin _ _)
    rw [rmtree_fs_ne htp_scr]
    simp only [recordEv_fs, writeFile_fs]
    rw [fsGet_fsSet_ne _ _ (pjoin_ne_right out (by decide)),
        fsGet_fsSet_ne _ _ ((ne_of_dirHas (dirHas_pjoin _ _) hscrp_out).symm).symm,
        fsGet_fsSet_ne _ _ (pjoin_ne_right out (by decide)),
        fsGet_fsSet_ne _ _ ((ne_of_dirHas (dirHas_pjoin _ _) hscrp_out).symm).symm,
        fsGet_fsSet_self]


/-- Witness for C8 at a concrete run: the tiff copy holds the source bytes. -/
theorem claim8_tiff_four_files_w :
    fsGet (generate_derivatives_from_tiff defaultTransform extOK "in.tiff" "out" "scr" "u"
      true false false (stInit "in.tiff" [9, 9])).2.fs
      (pjoin "out" defaultTransform.tiff_filename) = some [9, 9] :=
  (claim8_tiff_four_files extOK "in.tiff" "out" "scr" "u" (stInit "in.tiff" [9, 9])
    (generate_derivatives_from_tiff defaultTransform extOK "in.tiff" "out" "scr" "u"
      true false false (stInit "in.tiff" [9, 9])).1
    (generate_derivatives_from_tiff defaultTransform extOK "in.tiff" "out" "scr" "u"
      true false false (stInit "in.tiff" [9, 9])).2
    [9, 9] [1, 9, 9] [5, 9, 9] [4, 9, 9] [6, 4, 9, 9]
    rfl rfl rfl rfl rfl rfl rfl rfl (by decide) outScrDisjoint (by decide)).2.2

/-- C7 (amended): for every standard JPEG source (extraction, conversions and
validations all succeed), `generate_derivatives_from_jpg` with `save_xmp=true`
produces exactly 4 files in the (initially empty) output directory - the jpg
copy, the xmp sidecar, the lossless JP2 and the lossy JP2 (the claim's count
of 3 omits the lossy JP2 that transform.py always generates) - and the
produced jpg file is byte-identical to the source JPEG. -/
theorem claim7_four_files (ext : Ext) (jf out scratch uuid : String) (st : PSt)
    (r : Except Err (List String)) (st' : PSt) (sd xv xs td ld pd lyd : Bytes)
    (hrun : generate_derivatives_from_jpg defaultTransform ext jf out scratch uuid
      false true st = (r, st'))
    (hsd : fsGet st.fs jf = some sd)
    (hxo : ext.xmp_files_open sd = Except.ok ())
    (hgx : ext.get_xmp sd = Except.ok xv)
    (hsz : ext.serialize_to_unicode xv = Except.ok xs)
    (hct : ext.convert_to_tiff sd [] = Except.ok td)
    (hll : ext.convert_to_jpeg2000 td true = Except.ok ld)
    (hvl : ext.jp2_valid ld = true)
    (hpf : ext.convert_tiff_colour_profile td defaultTransform.icc_profile = Except.ok pd)
    (hly : ext.convert_colour_to_jpeg2000 pd false = Except.ok lyd)
    (hvy : ext.jp2_valid lyd = true)
    (hout0 : filesIn out st.fs = [])
    (hdisj : ∀ t, dirHas out t = true → dirHas scratch t = false)
    (hsrc_out : dirHas out jf = false) :
    r = Except.ok [pjoin out defaultTransform.jpg_filename,
      pjoin out defaultTransform.xmp_filename,
      pjoin out defaultTransform.lossless_jp2_filename,
      pjoin out defaultTransform.lossy_jp2_filename] ∧
    (filesIn out st'.fs).length = 4 ∧
    fsGet st'.fs (pjoin out defaultTransform.jpg_filename) = some sd := by
  have hne1 : jf ≠ pjoin out defaultTransform.jpg_filename :=
    (ne_of_dirHas (dirHas_pjoin _ _) hsrc_out).symm
  have hnjx : pjoin out defaultTransform.jpg_filename ≠ pjoin out defaultTransform.xmp_filename :=
    pjoin_ne_right out (by decide)
  have hscrp_out : dirHas out (pjoin scratch (uuid ++ ".tif")) = false := by
    cases h : dirHas out (pjoin scratch (uuid ++ ".tif")) with
    | false => rfl
    | true =>
      have := hdisj _ h
      rw [dirHas_pjoin] at this
      cases this
  have hne3 : pjoin scratch (uuid ++ ".tif") ≠ pjoin out defaultTransform.lossless_jp2_filename :=
    (ne_of_dirHas (dirHas_pjoin _ _) hscrp_out).symm
  have hmid1 : fsGet (recordEv (writeFile ({ st with scratchLive := true } : PSt)
      (pjoin out defaultTransform.jpg_filename) sd)
      (Ev.fileCopy jf (pjoin out defaultTransform.jpg_filename))).fs
      (pjoin out defaultTransform.jpg_filename) = some sd := by
    simp
  have hxp0 : fsGet (fsSet st.fs (pjoin out defaultTransform.jpg_filename) sd)
      (pjoin out defaultTransform.xmp_filename) = none := by
    rw [fsGet_fsSet_ne _ _ hnjx.symm]
    exact fsGet_none_of_filesIn_nil hout0 (dirHas_pjoin _ _)
  have hmid2 : fsGet (recordEv (writeFile (recordEv (writeFile (writeFile
      (recordEv (writeFile ({ st with scratchLive := true } : PSt)
        (pjoin out defaultTransform.jpg_filename) sd)
        (Ev.fileCopy jf (pjoin out defaultTransform.jpg_filename)))
      (pjoin out defaultTransform.xmp_filename) [])
      (pjoin out defaultTransform.xmp_filename) xs)
      (Ev.xmpWrite (pjoin out defaultTransform.xmp_filename)))
      (pjoin scratch (uuid ++ ".tif")) td)
      (Ev.tiffConv (pjoin out defaultTransform.jpg_filename)
        (pjoin scratch (uuid ++ ".tif")))).fs
      (pjoin scratch (uuid ++ ".tif")) = some td := by
    simp
  simp only [generate_derivatives_from_jpg, from_jpg_body, readFile, liftE_eq, andThen_ok,
    andThen_error, Bool.false_eq_true, if_false, if_true, recordEv_fs, writeFile_fs,
    fsGet_fsSet_self, fsGet_fsSet_ne _ _ hne1, fsGet_fsSet_ne _ _ hnjx,
    hsd, extract_xmp_eq_ok hmid1 hxo hgx hsz, hxp0, Option.getD_none, List.nil_append,
    hct, gen_jp2_eq_ok hmid2 hll hvl hne3 hpf hly hvy] at hrun
  obtain ⟨hr, hs⟩ := pair_eq hrun
  have hb1 : (pjoin out defaultTransform.lossless_jp2_filename ==
      pjoin out defaultTransform.lossy_jp2_filename) = false := by
    rw [beq_eq_false_iff_ne]
    exact pjoin_ne_right out (by decide)
  have hb2 : (pjoin out defaultTransform.xmp_filename ==
      pjoin out defaultTransform.lossy_jp2_filename) = false := by
    rw [beq_eq_false_iff_ne]
    exact pjoin_ne_right out (by decide)
  have hb3 : (pjoin out defaultTransform.jpg_filename ==
      pjoin out defaultTransform.lossy_jp2_filename) = false := by
    rw [beq_eq_false_iff_ne]
    exact pjoin_ne_right out (by decide)
  have hb4 : (pjoin out defaultTransform.xmp_filename ==
      pjoin out defaultTransform.lossless_jp2_filename) = false := by
    rw [beq_eq_false_iff_ne]
    exact pjoin_ne_right out (by decide)
  have hb5 : (pjoin out defaultTransform.jpg_filename ==
      pjoin out defaultTransform.lossless_jp2_filename) = false := by
    rw [beq_eq_false_iff_ne]
    exact pjoin_ne_right out (by decide)
  have hb6 : (pjoin out defaultTransform.jpg_filename ==
      pjoin out defaultTransform.xmp_filename) = false := by
    rw [beq_eq_false_iff_ne]
    exact hnjx
  subst hs
  refine ⟨?_, ?_, ?_⟩
  · rw [← hr]
    rfl
  · have hstep : filesIn out (rmtree ext (recordEv (recordEv (writeFile (recordEv (writeFile
        (recordEv (recordEv (writeFile (recordEv (writeFile (recordEv (writeFile (writeFile
        (recordEv (writeFile ({ st with scratchLive := true } : PSt)
          (pjoin out defaultTransform.jpg_filename) sd)
          (Ev.fileCopy jf (pjoin out defaultTransform.jpg_filename)))
        (pjoin out defaultTransform.xmp_filename) [])
        (pjoin out defaultTransform.xmp_filename) xs)
        (Ev.xmpWrite (pjoin out defaultTransform.xmp_filename)))
        (pjoin scratch (uuid ++ ".tif")) td)
        (Ev.tiffConv (pjoin out defaultTransform.jpg_filename)
          (pjoin scratch (uuid ++ ".tif"))))
        (pjoin out defaultTransform.lossless_jp2_filename) ld)
        (Ev.lossless (pjoin scratch (uuid ++ ".tif"))
          (pjoin out defaultTransform.lossless_jp2_filename)))
        (Ev.jp2Check (pjoin out defaultTransform.lossless_jp2_filename)))
        (pjoin scratch (uuid ++ ".tif")) pd)
        (Ev.profile (pjoin scratch (uuid ++ ".tif"))))
        (pjoin out defaultTransform.lossy_jp2_filename) lyd)
        (Ev.lossy (pjoin scratch (uuid ++ ".tif"))
          (pjoin out defaultTransform.lossy_jp2_filename)))
        (Ev.jp2Check (pjoin out defaultTransform.lossy_jp2_filename))) scratch).fs =
        filesIn out (fsSet (fsSet (fsSet (fsSet (fsSet (fsSet (fsSet st.fs
          (pjoin out defaultTransform.jpg_filename) sd)
          (pjoin out defaultTransform.xmp_filename) [])
          (pjoin out defaultTransform.xmp_filename) xs)
          (pjoin scratch (uuid ++ ".tif")) td)
          (pjoin out defaultTransform.lossless_jp2_filename) ld)
          (pjoin scratch (uuid ++ ".tif")) pd)
          (pjoin out defaultTransform.lossy_jp2_filename) lyd) := by
      unfold rmtree
      split
      · simp only [recordEv_fs, writeFile_fs]
        exact filesIn_rmtree_filter _ hdisj
      · simp only [recordEv_fs, writeFile_fs]
    rw [hstep]
    rw [filesIn_fsSet_in _ _ (dirHas_pjoin _ _),
        filesIn_fsSet_out _ _ hscrp_out,
        filesIn_fsSet_in _ _ (dirHas_pjoin _ _),
        filesIn_fsSet_out _ _ hscrp_out,
        filesIn_fsSet_in _ _ (dirHas_pjoin _ _),
        filesIn_fsSet_in _ _ (dirHas_pjoin _ _),
        filesIn_fsSet_in _ _ (dirHas_pjoin _ _),
        hout0]
    simp [List.filter_cons, hb1, hb2, hb3, hb4, hb5, hb6]
  · have hjp_scr : dirHas scratch (pjoin out defaultTransform.jpg_filename) = false :=
      hdisj _ (dirHas_pjoin _ _)
    rw [rmtree_fs_ne hjp_scr]
    simp only [recordEv_fs, writeFile_fs]
    rw [fsGet_fsSet_ne _ _ (pjoin_ne_right out (by decide)),
        fsGet_fsSet_ne _ _ ((ne_of_dirHas (dirHas_pjoin _ _) hscrp_out).symm).symm,
        fsGet_fsSet_ne _ _ (pjoin_ne_right out (by decide)),
        fsGet_fsSet_ne _ _ ((ne_of_dirHas (dirHas_pjoin _ _) hscrp_out).symm).symm,
        fsGet_fsSet_ne _ _ hnjx, fsGet_fsSet_ne _ _ hnjx,
        fsGet_fsSet_self]


/-- Witness for C7 at a concrete run: the jpg copy holds the source bytes. -/
theorem claim7_four_files_w :
    fsGet (generate_derivatives_from_jpg defaultTransform extOK "pic.jpg" "out" "scr" "u"
      false true (stInit "pic.jpg" [9])).2.fs
      (pjoin "out" defaultTransform.jpg_filename) = some [9] :=
  (claim7_four_files extOK "pic.jpg" "out" "scr" "u" (stInit "pic.jpg" [9])
    (generate_derivatives_from_jpg defaultTransform extOK "pic.jpg" "out" "scr" "u"
      false true (stInit "pic.jpg" [9])).1
    (generate_derivatives_from_jpg defaultTransform extOK "pic.jpg" "out" "scr" "u"
      false true (stInit "pic.jpg" [9])).2
    [9] [7, 9] [8, 7, 9] [2, 9] [5, 2, 9] [4, 2, 9] [6, 4, 2, 9]
    rfl rfl rfl rfl rfl rfl rfl rfl rfl rfl rfl (by decide) outScrDisjoint (by decide)).2.2

/-- C9 (amended): a failure of the XMP metadata-extraction step in a
`save_xmp=true` run of `generate_derivatives_from_tiff` is fatal, not
best-effort: the exception propagates as the run's result, the JP2
derivatives (and the optional tiff copy) are never produced - only the jpg
derivative written before the XMP step exists - and the scratch cleanup
still runs. -/
theorem claim9_xmp_failure_fatal (ext : Ext) (tf out scratch uuid : String)
    (it rp : Bool) (st : PSt)
    (r : Except Err (List String)) (st' : PSt) (sd jd : Bytes) (e : Err)
    (hrun : generate_derivatives_from_tiff defaultTransform ext tf out scratch uuid
      it true rp st = (r, st'))
    (hsd : fsGet st.fs tf = some sd)
    (hjpg : ext.convert_to_jpg sd = Except.ok jd)
    (hxo : ext.xmp_files_open sd = Except.ok ())
    (hgx : ext.get_xmp sd = Except.error e)
    (hout0 : filesIn out st.fs = [])
    (hdisj : ∀ t, dirHas out t = true → dirHas scratch t = false)
    (hsrc_out : dirHas out tf = false) :
    r = Except.error e ∧
    fsGet st'.fs (pjoin out defaultTransform.lossless_jp2_filename) = none ∧
    fsGet st'.fs (pjoin out defaultTransform.lossy_jp2_filename) = none ∧
    fsGet st'.fs (pjoin out defaultTransform.jpg_filename) = some jd ∧
    Ev.cleanup ∈ st'.events := by
  have hne1 : tf ≠ pjoin out defaultTransform.jpg_filename :=
    (ne_of_dirHas (dirHas_pjoin _ _) hsrc_out).symm
  have h1 : fsGet (recordEv (writeFile ({ st with scratchLive := true } : PSt)
      (pjoin out defaultTransform.jpg_filename) jd)
      (Ev.jpgConv tf (pjoin out defaultTransform.jpg_filename))).fs tf = some sd := by
    simp only [recordEv_fs, writeFile_fs]
    rw [fsGet_fsSet_ne _ _ hne1]
    exact hsd
  simp only [generate_derivatives_from_tiff, from_tiff_body, readFile, liftE_eq,
    andThen_ok, andThen_error, if_true, hsd, hjpg,
    extract_xmp_eq_getfail h1 hxo hgx] at hrun
  obtain ⟨hr, hs⟩ := pair_eq hrun
  subst hs
  refine ⟨hr.symm, ?_, ?_, ?_, cleanup_mem_rmtree _ _ _⟩
  · rw [rmtree_fs_ne (hdisj _ (dirHas_pjoin _ _))]
    simp only [recordEv_fs, writeFile_fs]
    rw [fsGet_fsSet_ne _ _ (pjoin_ne_right out (by decide))]
    exact fsGet_none_of_filesIn_nil hout0 (dirHas_pjoin _ _)
  · rw [rmtree_fs_ne (hdisj _ (dirHas_pjoin _ _))]
    simp only [recordEv_fs, writeFile_fs]
    rw [fsGet_fsSet_ne _ _ (pjoin_ne_right out (by decide))]
    exact fsGet_none_of_filesIn_nil hout0 (dirHas_pjoin _ _)
  · rw [rmtree_fs_ne (hdisj _ (dirHas_pjoin _ _))]
    simp only [recordEv_fs, writeFile_fs]
    rw [fsGet_fsSet_self]

/-- Witness for C9 at a concrete run: the failing extraction's error is the
run's result. -/
theorem claim9_xmp_failure_fatal_w :
    (generate_derivatives_from_tiff defaultTransform extXmpFail "in.tiff" "out" "scr" "u"
      true true false (stInit "in.tiff" [9, 9])).1 = Except.error Err.metadata :=
  (claim9_xmp_failure_fatal extXmpFail "in.tiff" "out" "scr" "u" true false
    (stInit "in.tiff" [9, 9])
    (generate_derivatives_from_tiff defaultTransform extXmpFail "in.tiff" "out" "scr" "u"
      true true false (stInit "in.tiff" [9, 9])).1
    (generate_derivatives_from_tiff defaultTransform extXmpFail "in.tiff" "out" "scr" "u"
      true true false (stInit "in.tiff" [9, 9])).2
    [9, 9] [1, 9, 9] Err.metadata
    rfl rfl rfl rfl rfl (by decide) outScrDisjoint (by decide)).1

end ImageProcessing
